import Mathlib

/-!
# Passphrase acquisition with bounded retries (`go/libkb/passphrase_helper.go`)

A shallow embedding of the prompt / check / retry helper of the Keybase client
library, followed by theorems about it.

Conventions of the embedding.

* A Go `error` value is a `GoError`; the `nil` error is `none : Option GoError`.
* A `PassphrasePrompter` is an interface value whose `Prompt` method may have side
  effects (it shows a dialog).  It is embedded with an explicit state `σ`: one call
  maps the state before the call and the argument to the returned pair and the state
  after the call.
* A `PassphraseChecker` is embedded as a function from the candidate string to
  `Option GoError`.  The `*GlobalContext` argument is used by the checkers for debug
  logging only, which has no influence on any returned value, and is left out.
* The calls a run makes to its two collaborators are recorded, in order, in a log of
  `Event`s which is returned next to the Go results.
-/

namespace libkb

/-! ## Data model (package `keybase1`) -/

/-- Modelled from the spec: the enumeration `keybase1.PassphraseType` is declared in the
protocol package.  `NONE` is its zero value; the helper uses `PAPER_KEY` and `PASS_PHRASE`. -/
inductive PassphraseType where
  | NONE
  | PAPER_KEY
  | PASS_PHRASE
  | VERIFY_PASS_PHRASE
  deriving DecidableEq, Repr

/-- Modelled from the spec: `keybase1.Feature`, one feature toggle
`{allow, defaultValue, readonly, label}`. -/
structure Feature where
  Allow : Bool
  DefaultValue : Bool
  Readonly : Bool
  Label : String
  deriving DecidableEq, Repr

/-- Modelled from the spec: `keybase1.GUIEntryFeatures`, the two toggles of a prompt. -/
structure GUIEntryFeatures where
  StoreSecret : Feature
  ShowTyping : Feature
  deriving DecidableEq, Repr

/-- Modelled from the spec: `keybase1.GUIEntryArg`, the prompt configuration.  The Go field
`Type` is written `Type_` here. -/
structure GUIEntryArg where
  WindowTitle : String
  Prompt : String
  Username : String
  SubmitLabel : String
  CancelLabel : String
  RetryLabel : String
  Type_ : PassphraseType
  Features : GUIEntryFeatures
  deriving DecidableEq, Repr

/-- Modelled from the spec: `keybase1.GetPassphraseRes`, the prompt result
`{passphrase, storeSecret}`. -/
structure GetPassphraseRes where
  Passphrase : String
  StoreSecret : Bool
  deriving DecidableEq, Repr

/-- The Go zero value `keybase1.GetPassphraseRes{}`. -/
def GetPassphraseRes.zero : GetPassphraseRes :=
  { Passphrase := "", StoreSecret := false }

/-! ## Errors -/

/-- A non-nil Go `error` value, as far as this file can tell error values apart:
the values built by `errors.New` and `fmt.Errorf` (which carry their text),
the value `RetryExhaustedError{}`, and any other error value a prompter or a checker
may return (told apart by a tag, carrying its `Error()` text). -/
inductive GoError where
  | errorString (text : String)
  | RetryExhaustedError
  | other (tag : Nat) (text : String)
  deriving DecidableEq, Repr

/-- The method `err.Error()`.  The text of `RetryExhaustedError{}` is declared with that
type, outside this file; it is the parameter `exhaustedText`. -/
def GoError.Error (exhaustedText : String) : GoError → String
  | .errorString text => text
  | .RetryExhaustedError => exhaustedText
  | .other _ text => text

/-! ## Collaborators -/

/-- The interface `PassphrasePrompter`: `Prompt(arg)` returns a pair `(res, err)`.
The state `σ` carries whatever the implementation remembers between calls. -/
structure PassphrasePrompter (σ : Type) where
  Prompt : σ → GUIEntryArg → (GetPassphraseRes × Option GoError) × σ

/-- The interface `PassphraseChecker`: `Check(g, s)` returns `nil` if the format of `s` is
ok, or a descriptive hint otherwise. -/
abbrev PassphraseChecker := String → Option GoError

/-- A call made to one of the two collaborators, with what it returned. -/
inductive Event where
  | prompt (arg : GUIEntryArg) (res : GetPassphraseRes) (err : Option GoError)
  | check (s : String) (err : Option GoError)
  deriving DecidableEq, Repr

/-- What a run returns: the Go pair `(res, err)`, the log of the calls made to the
prompter and the checker in the order they were made, and the prompter's final state. -/
structure Run (σ : Type) where
  res : GetPassphraseRes
  err : Option GoError
  log : List Event
  state : σ

/-- The Prompter calls of a log, in order: the argument passed and the pair returned. -/
def promptCalls : List Event → List (GUIEntryArg × GetPassphraseRes × Option GoError)
  | [] => []
  | .prompt arg res err :: l => (arg, res, err) :: promptCalls l
  | .check _ _ :: l => promptCalls l

/-- The Checker calls of a log, in order: the candidate passed and the error returned. -/
def checkCalls : List Event → List (String × Option GoError)
  | [] => []
  | .prompt _ _ _ :: l => checkCalls l
  | .check s err :: l => (s, err) :: checkCalls l

/-! ## The retry loop -/

/-- The body of `GetPassphraseUntilCheck`: the `for` loop with `n` iterations left to run
(`n = 10 - i`), the current value of the local `arg`, and the prompter state; followed by
the `return` after the loop.  A `nil` checker is `none`. -/
def untilCheckLoop {σ : Type} (exhaustedText : String) (prompter : PassphrasePrompter σ)
    (checker : Option PassphraseChecker) : Nat → GUIEntryArg → σ → Run σ
  | 0, _, st => { res := GetPassphraseRes.zero, err := some .RetryExhaustedError, log := [], state := st }
  | n + 1, arg, st =>
    match prompter.Prompt st arg with
    | ((res, some err), st1) =>
      { res := GetPassphraseRes.zero, err := some err, log := [.prompt arg res (some err)], state := st1 }
    | ((res, none), st1) =>
      match checker with
      | none => { res := res, err := none, log := [.prompt arg res none], state := st1 }
      | some check =>
        match check res.Passphrase with
        | none =>
          { res := res, err := none,
            log := [.prompt arg res none, .check res.Passphrase none], state := st1 }
        | some err =>
          let r := untilCheckLoop exhaustedText prompter checker n
            { arg with RetryLabel := err.Error exhaustedText } st1
          { r with log := .prompt arg res none :: .check res.Passphrase (some err) :: r.log }

/-- The function `GetPassphraseUntilCheck(g, arg, prompter, checker)`. -/
def GetPassphraseUntilCheck {σ : Type} (exhaustedText : String) (arg : GUIEntryArg)
    (prompter : PassphrasePrompter σ) (st : σ) (checker : Option PassphraseChecker) : Run σ :=
  untilCheckLoop exhaustedText prompter checker 10 arg st

/-! ## Checkers -/

/-- Modelled from the spec: the struct `Checker` is declared elsewhere in the package; it
holds a boolean test function `F` plus a fixed hint string `Hint`. -/
structure Checker where
  F : String → Bool
  Hint : String

/-- The struct `CheckerWrapper` wraps a `Checker` to make it conform to the
`PassphraseChecker` interface. -/
structure CheckerWrapper where
  checker : Checker

/-- The method `(w *CheckerWrapper) Check(_, s)`: check `s` using checker, respond with
`checker.Hint` if the check fails. -/
def CheckerWrapper.Check (w : CheckerWrapper) (s : String) : Option GoError :=
  if w.checker.F s then none else some (.errorString w.checker.Hint)

/-- What `PaperChecker.Check` uses of the paper key phrase code, which is declared
elsewhere in the package: the phrase type `φ`, the parser `NewPaperKeyPhrase`, the methods
`InvalidWords`, `Version` (a Go pair `(version, err)`) and `String` of a phrase, and the
constant `PaperKeyVersion`.  They are parameters of the embedding. -/
structure PaperKeyOps (φ : Type) where
  NewPaperKeyPhrase : String → φ
  InvalidWords : φ → List String
  Version : φ → Nat × Option GoError
  PaperKeyVersion : Nat
  String : φ → String

/-- The method `(p *PaperChecker) Check(g, s)`: check a paper key format; returns a
detailed error message specific to the problems found in `s`.  Go's `len` of a string is
its length in bytes. -/
def PaperChecker.Check {φ : Type} (pk : PaperKeyOps φ) (s : String) : Option GoError :=
  let phrase := pk.NewPaperKeyPhrase s
  if (pk.String phrase).utf8ByteSize = 0 then
    some (.errorString "Empty paper key. Please try again.")
  else
    let invalids := pk.InvalidWords phrase
    if h : invalids.length > 0 then
      if invalids.length > 1 then
        some (.errorString
          ("Please try again. These words are invalid: " ++ ", ".intercalate invalids))
      else
        some (.errorString ("Please try again. This word is invalid: " ++ invalids[0]))
    else
      match pk.Version phrase with
      | (_, some _) =>
        some (.errorString "It looks like there was a typo in the paper key. Please try again.")
      | (version, none) =>
        if version ≠ pk.PaperKeyVersion then
          some (.errorString
            "It looks like there was a typo. The paper key you entered had an invalid version. Please try again.")
        else
          none

/-! ## Entry points -/

/-- The function `GetPassphraseUntilCheckWithChecker(g, arg, prompter, checker)`; the
pointer `checker` is `none` when it is `nil`. -/
def GetPassphraseUntilCheckWithChecker {σ : Type} (exhaustedText : String) (arg : GUIEntryArg)
    (prompter : PassphrasePrompter σ) (st : σ) (checker : Option Checker) : Run σ :=
  match checker with
  | none =>
    { res := GetPassphraseRes.zero, err := some (.errorString "nil passphrase checker"),
      log := [], state := st }
  | some c =>
    let w : CheckerWrapper := { checker := c }
    GetPassphraseUntilCheck exhaustedText arg prompter st (some w.Check)

/-- The function `DefaultPassphraseArg(allowSecretStore)`; the fields the composite literal
leaves out have their zero value. -/
def DefaultPassphraseArg (allowSecretStore : Bool) : GUIEntryArg :=
  { WindowTitle := "", Prompt := "", Username := "", RetryLabel := "",
    Type_ := .NONE,
    SubmitLabel := "Submit",
    CancelLabel := "Cancel",
    Features :=
      { ShowTyping :=
          { Allow := true, DefaultValue := false, Readonly := true, Label := "Show typing" },
        StoreSecret :=
          { Allow := allowSecretStore, DefaultValue := false, Readonly := false,
            Label := "Save in Keychain" } } }

/-- The interface `SecretUI`, of which the helper calls `GetPassphrase(arg, nil)` only; the
second argument, always `nil` here, is left out. -/
structure SecretUI (σ : Type) where
  GetPassphrase : σ → GUIEntryArg → (GetPassphraseRes × Option GoError) × σ

/-- The function `newUIPrompter(ui)` with the method `(u *uiPrompter) Prompt(arg)`. -/
def newUIPrompter {σ : Type} (ui : SecretUI σ) : PassphrasePrompter σ :=
  { Prompt := fun st arg => ui.GetPassphrase st arg }

/-- The function `GetKeybasePassphrase(g, ui, username, retryMsg, allowSecretStore)`.  The
package variable `CheckPassphraseSimple`, declared elsewhere, is a parameter. -/
def GetKeybasePassphrase {σ : Type} (exhaustedText : String) (CheckPassphraseSimple : Checker)
    (ui : SecretUI σ) (st : σ) (username retryMsg : String) (allowSecretStore : Bool) : Run σ :=
  let arg := DefaultPassphraseArg allowSecretStore
  let arg := { arg with WindowTitle := "Keybase passphrase" }
  let arg := { arg with Type_ := .PASS_PHRASE }
  let arg := { arg with Username := username }
  let arg := { arg with
    Prompt := "Please enter the Keybase passphrase for " ++ username ++ " (12+ characters)" }
  let arg := { arg with RetryLabel := retryMsg }
  GetPassphraseUntilCheckWithChecker exhaustedText arg (newUIPrompter ui) st
    (some CheckPassphraseSimple)

/-- The function `GetSecret(g, ui, title, prompt, retryMsg, allowSecretStore)`. -/
def GetSecret {σ : Type} (exhaustedText : String) (CheckPassphraseSimple : Checker)
    (ui : SecretUI σ) (st : σ) (title prompt retryMsg : String) (allowSecretStore : Bool) :
    Run σ :=
  let arg := DefaultPassphraseArg allowSecretStore
  let arg := { arg with WindowTitle := title }
  let arg := { arg with Type_ := .PASS_PHRASE }
  let arg := { arg with Prompt := prompt }
  let arg := { arg with RetryLabel := retryMsg }
  let arg := { arg with
    Features := { arg.Features with
      StoreSecret := { arg.Features.StoreSecret with Allow := allowSecretStore } } }
  GetPassphraseUntilCheckWithChecker exhaustedText arg (newUIPrompter ui) st
    (some CheckPassphraseSimple)

/-- What the two paper key entry points return: the Go pair `(string, error)`, with the
log of the calls made and the final state of the UI. -/
structure StringRun (σ : Type) where
  str : String
  err : Option GoError
  log : List Event
  state : σ

/-- The function `GetPaperKeyPassphrase(g, ui, username)`. -/
def GetPaperKeyPassphrase {σ φ : Type} (exhaustedText : String) (pk : PaperKeyOps φ)
    (ui : SecretUI σ) (st : σ) (username : String) : StringRun σ :=
  let arg := DefaultPassphraseArg false
  let arg := { arg with WindowTitle := "Paper backup key passphrase" }
  let arg := { arg with Type_ := .PAPER_KEY }
  let username := if username.utf8ByteSize = 0 then "your account" else username
  let arg := { arg with
    Prompt := "Please enter a paper backup key passphrase for " ++ username }
  let arg := { arg with Username := username }
  let arg := { arg with
    Features := { arg.Features with StoreSecret := { arg.Features.StoreSecret with Allow := false } } }
  let arg := { arg with
    Features := { arg.Features with StoreSecret := { arg.Features.StoreSecret with Readonly := true } } }
  let arg := { arg with
    Features := { arg.Features with ShowTyping := { arg.Features.ShowTyping with Allow := true } } }
  let arg := { arg with
    Features := { arg.Features with
      ShowTyping := { arg.Features.ShowTyping with DefaultValue := true } } }
  let r := GetPassphraseUntilCheck exhaustedText arg (newUIPrompter ui) st
    (some (PaperChecker.Check pk))
  match r.err with
  | some err => { str := "", err := some err, log := r.log, state := r.state }
  | none => { str := r.res.Passphrase, err := none, log := r.log, state := r.state }

/-- The struct `Device`, declared elsewhere in the package, as far as the helper reads it:
the field `Description` of type `*string`, `none` when the pointer is `nil`. -/
structure Device where
  Description : Option String
  deriving DecidableEq, Repr

/-- The expression `*dev.Description` for `dev` of type `*Device`: `none` when `dev` or
`dev.Description` is `nil` (the dereference panics). -/
def derefDescription : Option Device → Option String
  | none => none
  | some dev => dev.Description

/-- The loop of `GetPaperKeyForCryptoPassphrase` that fills `descs`: entry `i` is
`fmt.Sprintf("'%s...'", *dev.Description)`; `none` when a dereference panics. -/
def paperKeyDescs : List (Option Device) → Option (List String)
  | [] => some []
  | dev :: devices =>
    match derefDescription dev with
    | none => none
    | some d =>
      match paperKeyDescs devices with
      | none => none
      | some descs => some (("'" ++ d ++ "...'") :: descs)

/-- The function `GetPaperKeyForCryptoPassphrase(g, ui, reason, devices)`; `devices` has
type `[]*Device`.  The result is `none` when the function panics on a nil pointer. -/
def GetPaperKeyForCryptoPassphrase {σ φ : Type} (exhaustedText : String) (pk : PaperKeyOps φ)
    (ui : SecretUI σ) (st : σ) (reason : String) (devices : List (Option Device)) :
    Option (StringRun σ) :=
  if hlen : devices.length = 0 then
    some { str := "", err := some (.errorString "empty device list"), log := [], state := st }
  else
    let arg := DefaultPassphraseArg false
    let arg := { arg with WindowTitle := "Paper backup key passphrase" }
    let arg := { arg with Type_ := .PAPER_KEY }
    let arg := { arg with
      Features := { arg.Features with StoreSecret := { arg.Features.StoreSecret with Allow := false } } }
    let arg := { arg with
      Features := { arg.Features with StoreSecret := { arg.Features.StoreSecret with Readonly := true } } }
    let prompt : Option String :=
      if devices.length = 1 then
        match derefDescription (devices[0]) with
        | none => none
        | some d => some (reason ++ ": please enter the paper key '" ++ d ++ "...'")
      else
        match paperKeyDescs devices with
        | none => none
        | some descs =>
          let paperOpts := " or ".intercalate descs
          some (reason ++ ": please enter one of the following paper keys " ++ paperOpts)
    match prompt with
    | none => none
    | some p =>
      let arg := { arg with Prompt := p }
      let r := GetPassphraseUntilCheck exhaustedText arg (newUIPrompter ui) st
        (some (PaperChecker.Check pk))
      match r.err with
      | some err => some { str := "", err := some err, log := r.log, state := r.state }
      | none => some { str := r.res.Passphrase, err := none, log := r.log, state := r.state }

/-! ## Example collaborators

Concrete prompters and checkers on which the definitions above can be evaluated. -/

/-- A prompter that answers from a script, one entry per call, whatever the argument;
when the script has run out it returns an error. -/
def scriptedPrompter : PassphrasePrompter (List (GetPassphraseRes × Option GoError)) :=
  { Prompt := fun st _ =>
      match st with
      | [] => ((GetPassphraseRes.zero, some (.other 0 "no more input")), [])
      | r :: rest => (r, rest) }

/-- A prompter that never errors and returns `r` at every call. -/
def constPrompter (r : GetPassphraseRes) : PassphrasePrompter Unit :=
  { Prompt := fun st _ => ((r, none), st) }

/-- A prompter that never errors, returns the passphrase `p` at every call, counts its
calls in its state, and reports in `StoreSecret` whether the count was even. -/
def countingPrompter (p : String) : PassphrasePrompter Nat :=
  { Prompt := fun st _ => (({ Passphrase := p, StoreSecret := st % 2 == 0 }, none), st + 1) }

/-- A checker that accepts the passphrase `good` only, and names the candidate in its hint. -/
def exampleChecker : PassphraseChecker :=
  fun s => if s = "good" then none else some (.errorString ("bad: " ++ s))

/-- A script: a rejected candidate, the accepted one, and an entry that is never asked for. -/
def exampleScript : List (GetPassphraseRes × Option GoError) :=
  [({ Passphrase := "a", StoreSecret := false }, none),
   ({ Passphrase := "good", StoreSecret := true }, none),
   ({ Passphrase := "b", StoreSecret := false }, none)]

/-- A script: a rejected candidate, then the user cancels. -/
def cancelScript : List (GetPassphraseRes × Option GoError) :=
  [({ Passphrase := "a", StoreSecret := false }, none),
   ({ Passphrase := "", StoreSecret := false }, some (.other 7 "canceled"))]

/-- The words of a list of characters, split at blanks; `cur` holds the characters of the
word being read, last one first. -/
def toyWords : List Char → List Char → List String
  | [], cur => if cur = [] then [] else [String.mk cur.reverse]
  | c :: cs, cur =>
    if c = ' ' then
      if cur = [] then toyWords cs [] else String.mk cur.reverse :: toyWords cs []
    else toyWords cs (c :: cur)

/-- A toy paper key scheme on which `PaperChecker.Check` can be evaluated (it is not the
scheme of the Keybase client): a phrase is the list of the words of the candidate, the
word list is `alpha`, `beta`, `gamma`, the first word of a phrase of two or more words
encodes the version (`alpha` is 0, `beta` is 1), and the supported version is 1. -/
def toyPaperKey : PaperKeyOps (List String) :=
  { NewPaperKeyPhrase := fun s => toyWords s.data []
    InvalidWords := fun p => p.filter fun w => !(["alpha", "beta", "gamma"].contains w)
    Version := fun p =>
      match p with
      | [] => (0, some (.other 3 "empty phrase"))
      | [_] => (0, some (.other 4 "phrase too short"))
      | w :: _ :: _ =>
        if w = "alpha" then (0, none)
        else if w = "beta" then (1, none)
        else (0, some (.other 5 "unknown version word"))
    PaperKeyVersion := 1
    String := fun p => " ".intercalate p }

/-- A UI that answers from a script, one entry per call, like `scriptedPrompter`. -/
def scriptedUI : SecretUI (List (GetPassphraseRes × Option GoError)) :=
  { GetPassphrase := fun st arg => scriptedPrompter.Prompt st arg }

/-- A script for the paper key prompts: a phrase with an unknown word, then a phrase the
toy scheme accepts. -/
def paperScript : List (GetPassphraseRes × Option GoError) :=
  [({ Passphrase := "beta foo", StoreSecret := false }, none),
   ({ Passphrase := "beta gamma", StoreSecret := false }, none)]

/-- A checker that rejects every candidate with an empty hint. -/
def emptyHintChecker : Checker :=
  { F := fun _ => false, Hint := "" }

/-- A checker that wants 12 characters or more. -/
def lengthChecker : Checker :=
  { F := fun s => decide (12 ≤ s.length), Hint := "passphrase must be 12+ characters" }

/-- Two devices with a description each. -/
def exampleDevices : List (Option Device) :=
  [some { Description := some "ocean tide" }, some { Description := some "maple leaf" }]

/-! ## The loop, one iteration at a time -/

section Loop

variable {σ : Type} (x : String) (P : PassphrasePrompter σ)

theorem untilCheckLoop_zero (C : Option PassphraseChecker) (arg : GUIEntryArg) (st : σ) :
    untilCheckLoop x P C 0 arg st =
      { res := GetPassphraseRes.zero, err := some .RetryExhaustedError, log := [], state := st } := by
  simp [untilCheckLoop]

theorem untilCheckLoop_promptErr (C : Option PassphraseChecker) (n : Nat) {arg : GUIEntryArg}
    {st st1 : σ} {res : GetPassphraseRes} {e : GoError}
    (hP : P.Prompt st arg = ((res, some e), st1)) :
    untilCheckLoop x P C (n + 1) arg st =
      { res := GetPassphraseRes.zero, err := some e, log := [.prompt arg res (some e)],
        state := st1 } := by
  simp [untilCheckLoop, hP]

theorem untilCheckLoop_nilChecker (n : Nat) {arg : GUIEntryArg}
    {st st1 : σ} {res : GetPassphraseRes} (hP : P.Prompt st arg = ((res, none), st1)) :
    untilCheckLoop x P none (n + 1) arg st =
      { res := res, err := none, log := [.prompt arg res none], state := st1 } := by
  simp [untilCheckLoop, hP]

theorem untilCheckLoop_accept (check : PassphraseChecker) (n : Nat) {arg : GUIEntryArg}
    {st st1 : σ} {res : GetPassphraseRes} (hP : P.Prompt st arg = ((res, none), st1))
    (hC : check res.Passphrase = none) :
    untilCheckLoop x P (some check) (n + 1) arg st =
      { res := res, err := none,
        log := [.prompt arg res none, .check res.Passphrase none], state := st1 } := by
  simp [untilCheckLoop, hP, hC]

theorem untilCheckLoop_reject (check : PassphraseChecker) (n : Nat) {arg : GUIEntryArg}
    {st st1 : σ} {res : GetPassphraseRes} {e : GoError}
    (hP : P.Prompt st arg = ((res, none), st1)) (hC : check res.Passphrase = some e) :
    untilCheckLoop x P (some check) (n + 1) arg st =
      { untilCheckLoop x P (some check) n { arg with RetryLabel := e.Error x } st1 with
        log := .prompt arg res none :: .check res.Passphrase (some e) ::
          (untilCheckLoop x P (some check) n { arg with RetryLabel := e.Error x } st1).log } := by
  simp [untilCheckLoop, hP, hC]

/-- With a checker, `n` iterations end without error exactly when one of the at most `n`
Prompter calls made returned, without error, a passphrase the checker accepts. -/
theorem untilCheckLoop_err_none_iff (check : PassphraseChecker) (n : Nat) (arg : GUIEntryArg)
    (st : σ) :
    (untilCheckLoop x P (some check) n arg st).err = none ↔
      ∃ k, k < n ∧ ∃ a r,
        (promptCalls (untilCheckLoop x P (some check) n arg st).log)[k]? = some (a, r, none) ∧
        check r.Passphrase = none := by
  induction n generalizing arg st with
  | zero => simp [untilCheckLoop_zero]
  | succ n ih =>
    rcases hP : P.Prompt st arg with ⟨⟨res, _ | e⟩, st1⟩
    · rcases hC : check res.Passphrase with _ | e
      · rw [untilCheckLoop_accept x P check n hP hC]
        simp only [promptCalls, true_iff]
        exact ⟨0, Nat.succ_pos n, arg, res, rfl, hC⟩
      · rw [untilCheckLoop_reject x P check n hP hC]
        simp only [promptCalls]
        rw [ih]
        constructor
        · rintro ⟨k, hk, a, r, hget, hacc⟩
          exact ⟨k + 1, Nat.succ_lt_succ hk, a, r, by simpa using hget, hacc⟩
        · rintro ⟨k, hk, a, r, hget, hacc⟩
          cases k with
          | zero =>
            simp only [List.getElem?_cons_zero, Option.some.injEq, Prod.mk.injEq] at hget
            obtain ⟨-, rfl, -⟩ := hget
            rw [hC] at hacc
            exact absurd hacc (by simp)
          | succ k =>
            exact ⟨k, Nat.lt_of_succ_lt_succ hk, a, r, by simpa using hget, hacc⟩
    · rw [untilCheckLoop_promptErr x P (some check) n hP]
      simp only [promptCalls]
      constructor
      · intro h
        exact absurd h (by simp)
      · rintro ⟨k, -, a, r, hget, -⟩
        cases k with
        | zero => simp at hget
        | succ k => simp at hget

/-- With a checker, a run of `n` iterations that ends without error returns the pair of
its last Prompter call, the checker accepts that passphrase, and every earlier Prompter
call returned without error a passphrase the checker rejects. -/
theorem untilCheckLoop_success_last (check : PassphraseChecker) (n : Nat) (arg : GUIEntryArg)
    (st : σ) (h : (untilCheckLoop x P (some check) n arg st).err = none) :
    ∃ pre a,
      promptCalls (untilCheckLoop x P (some check) n arg st).log =
        pre ++ [(a, (untilCheckLoop x P (some check) n arg st).res, none)] ∧
      check (untilCheckLoop x P (some check) n arg st).res.Passphrase = none ∧
      ∀ q ∈ pre, q.2.2 = none ∧ check q.2.1.Passphrase ≠ none := by
  induction n generalizing arg st with
  | zero => simp [untilCheckLoop_zero] at h
  | succ n ih =>
    rcases hP : P.Prompt st arg with ⟨⟨res, _ | e⟩, st1⟩
    · rcases hC : check res.Passphrase with _ | e
      · rw [untilCheckLoop_accept x P check n hP hC]
        exact ⟨[], arg, by simp [promptCalls], hC, by simp⟩
      · rw [untilCheckLoop_reject x P check n hP hC] at h ⊢
        obtain ⟨pre, a, hlog, hacc, hpre⟩ := ih _ _ h
        refine ⟨(arg, res, none) :: pre, a, ?_, hacc, ?_⟩
        · simp only [promptCalls, hlog, List.cons_append]
        · intro q hq
          rcases List.mem_cons.1 hq with rfl | hq
          · exact ⟨rfl, by simp [hC]⟩
          · exact hpre q hq
    · rw [untilCheckLoop_promptErr x P (some check) n hP] at h
      simp at h

/-- A prompter that never errors and always returns the passphrase `p`, with a checker
that rejects `p`: all `n` iterations run, and the loop ends with `RetryExhaustedError{}`
and the zero result. -/
theorem untilCheckLoop_always_rejected (check : PassphraseChecker) (p : String)
    (hP : ∀ st arg, (P.Prompt st arg).1.2 = none ∧ (P.Prompt st arg).1.1.Passphrase = p)
    (hC : check p ≠ none) (n : Nat) (arg : GUIEntryArg) (st : σ) :
    (promptCalls (untilCheckLoop x P (some check) n arg st).log).length = n ∧
      (untilCheckLoop x P (some check) n arg st).err = some .RetryExhaustedError ∧
      (untilCheckLoop x P (some check) n arg st).res = GetPassphraseRes.zero := by
  induction n generalizing arg st with
  | zero => simp [untilCheckLoop_zero, promptCalls]
  | succ n ih =>
    rcases hq : P.Prompt st arg with ⟨⟨res, err⟩, st1⟩
    have h1 := hP st arg
    rw [hq] at h1
    obtain ⟨herr, hpass⟩ := h1
    simp only at herr hpass
    subst herr
    rcases hc : check res.Passphrase with _ | e
    · rw [hpass] at hc
      exact absurd hc hC
    · rw [untilCheckLoop_reject x P check n hq hc]
      obtain ⟨h1, h2, h3⟩ := ih { arg with RetryLabel := e.Error x } st1
      exact ⟨by simp only [promptCalls, List.length_cons, h1], h2, h3⟩

/-- A prompter that never errors and always returns the passphrase `p`, with a checker
that rejects `p` with the error `e`, on a configuration whose `RetryLabel` is already the
text of `e`: Prompter call number `k` (from 0) of the `n` iterations is the call of
`P.Prompt` on that configuration in the state reached after `k` calls, every Checker call
checks `p`, and the final state is the one reached after `n` calls. -/
theorem untilCheckLoop_always_rejected_calls (check : PassphraseChecker) (p : String)
    (e : GoError)
    (hP : ∀ st arg, (P.Prompt st arg).1.2 = none ∧ (P.Prompt st arg).1.1.Passphrase = p)
    (hC : check p = some e) (n : Nat) (arg : GUIEntryArg) (hlabel : arg.RetryLabel = e.Error x)
    (st : σ) :
    (∀ k, k < n → (promptCalls (untilCheckLoop x P (some check) n arg st).log)[k]? =
      some (arg, (P.Prompt (Nat.iterate (fun s => (P.Prompt s arg).2) k st) arg).1)) ∧
    checkCalls (untilCheckLoop x P (some check) n arg st).log = List.replicate n (p, some e) ∧
    (untilCheckLoop x P (some check) n arg st).state =
      Nat.iterate (fun s => (P.Prompt s arg).2) n st := by
  have harg : ({ arg with RetryLabel := e.Error x } : GUIEntryArg) = arg := by
    rw [← hlabel]
  induction n generalizing st with
  | zero =>
    refine ⟨fun k hk => absurd hk (Nat.not_lt_zero k), ?_, ?_⟩
    · simp [untilCheckLoop_zero, checkCalls]
    · simp [untilCheckLoop_zero, Nat.iterate]
  | succ n ih =>
    rcases hq : P.Prompt st arg with ⟨⟨res, err⟩, st1⟩
    have h1 := hP st arg
    rw [hq] at h1
    obtain ⟨herr, hpass⟩ := h1
    simp only at herr hpass
    subst herr
    have hc : check res.Passphrase = some e := by rw [hpass, hC]
    rw [untilCheckLoop_reject x P check n hq hc, harg]
    obtain ⟨h1, h2, h3⟩ := ih st1
    refine ⟨?_, ?_, ?_⟩
    · intro k hk
      cases k with
      | zero => simp [promptCalls, Nat.iterate, hq]
      | succ k =>
        simp only [promptCalls, List.getElem?_cons_succ, Nat.iterate, hq]
        exact h1 k (Nat.lt_of_succ_lt_succ hk)
    · simp only [checkCalls, h2, hpass, List.replicate_succ]
    · simp only [Nat.iterate, hq]
      exact h3

/-- Every Prompter call of a run receives the caller's configuration with at most the
field `RetryLabel` changed. -/
theorem untilCheckLoop_frame (C : Option PassphraseChecker) (n : Nat) (arg : GUIEntryArg)
    (st : σ) :
    ∀ q ∈ promptCalls (untilCheckLoop x P C n arg st).log,
      q.1.WindowTitle = arg.WindowTitle ∧ q.1.Prompt = arg.Prompt ∧
      q.1.Username = arg.Username ∧ q.1.SubmitLabel = arg.SubmitLabel ∧
      q.1.CancelLabel = arg.CancelLabel ∧ q.1.Type_ = arg.Type_ ∧
      q.1.Features = arg.Features := by
  induction n generalizing arg st with
  | zero => simp [untilCheckLoop_zero, promptCalls]
  | succ n ih =>
    rcases hP : P.Prompt st arg with ⟨⟨res, _ | e⟩, st1⟩
    · rcases C with _ | check
      · rw [untilCheckLoop_nilChecker x P n hP]
        simp [promptCalls]
      · rcases hC : check res.Passphrase with _ | e
        · rw [untilCheckLoop_accept x P check n hP hC]
          simp [promptCalls]
        · rw [untilCheckLoop_reject x P check n hP hC]
          intro q hq
          simp only [promptCalls] at hq
          rcases List.mem_cons.1 hq with rfl | hq
          · exact ⟨rfl, rfl, rfl, rfl, rfl, rfl, rfl⟩
          · exact ih { arg with RetryLabel := e.Error x } st1 q hq
    · rw [untilCheckLoop_promptErr x P C n hP]
      simp [promptCalls]

/-- A run of `n` iterations makes at most `n` Prompter calls, and at most as many Checker
calls as Prompter calls. -/
theorem untilCheckLoop_call_counts (C : Option PassphraseChecker) (n : Nat) (arg : GUIEntryArg)
    (st : σ) :
    (promptCalls (untilCheckLoop x P C n arg st).log).length ≤ n ∧
      (checkCalls (untilCheckLoop x P C n arg st).log).length ≤
        (promptCalls (untilCheckLoop x P C n arg st).log).length := by
  induction n generalizing arg st with
  | zero => simp [untilCheckLoop_zero, promptCalls, checkCalls]
  | succ n ih =>
    rcases hP : P.Prompt st arg with ⟨⟨res, _ | e⟩, st1⟩
    · rcases C with _ | check
      · rw [untilCheckLoop_nilChecker x P n hP]
        simp [promptCalls, checkCalls]
      · rcases hC : check res.Passphrase with _ | e
        · rw [untilCheckLoop_accept x P check n hP hC]
          simp [promptCalls, checkCalls]
        · rw [untilCheckLoop_reject x P check n hP hC]
          obtain ⟨h1, h2⟩ := ih { arg with RetryLabel := e.Error x } st1
          simp only [promptCalls, checkCalls, List.length_cons]
          omega
    · rw [untilCheckLoop_promptErr x P C n hP]
      simp [promptCalls, checkCalls]

/-- A Prompter call that returns an error is the last call of the run: the run returns
that error with the zero result, and the checker is not called for it. -/
theorem untilCheckLoop_prompt_error (C : Option PassphraseChecker) (n : Nat) (arg : GUIEntryArg)
    (st : σ) (k : Nat) (a : GUIEntryArg) (r : GetPassphraseRes) (e : GoError)
    (h : (promptCalls (untilCheckLoop x P C n arg st).log)[k]? = some (a, r, some e)) :
    (untilCheckLoop x P C n arg st).err = some e ∧
      (untilCheckLoop x P C n arg st).res = GetPassphraseRes.zero ∧
      (promptCalls (untilCheckLoop x P C n arg st).log).length = k + 1 ∧
      (checkCalls (untilCheckLoop x P C n arg st).log).length = k ∧
      (untilCheckLoop x P C n arg st).log.getLast? = some (.prompt a r (some e)) := by
  induction n generalizing arg st k with
  | zero => simp [untilCheckLoop_zero, promptCalls] at h
  | succ n ih =>
    rcases hP : P.Prompt st arg with ⟨⟨res, _ | e1⟩, st1⟩
    · rcases C with _ | check
      · rw [untilCheckLoop_nilChecker x P n hP] at h
        cases k <;> simp [promptCalls] at h
      · rcases hC : check res.Passphrase with _ | e2
        · rw [untilCheckLoop_accept x P check n hP hC] at h
          cases k <;> simp [promptCalls] at h
        · rw [untilCheckLoop_reject x P check n hP hC] at h ⊢
          cases k with
          | zero => simp [promptCalls] at h
          | succ k =>
            simp only [promptCalls, List.getElem?_cons_succ] at h
            obtain ⟨h1, h2, h3, h4, h5⟩ := ih _ _ k h
            refine ⟨h1, h2, ?_, ?_, ?_⟩
            · simp only [promptCalls, List.length_cons, h3]
            · simp only [checkCalls, List.length_cons, h4]
            · simp only [List.getLast?_cons_cons]
              rcases hl : (untilCheckLoop x P (some check) n
                  { arg with RetryLabel := e2.Error x } st1).log with _ | ⟨ev, l⟩
              · rw [hl] at h5
                simp at h5
              · rw [hl] at h5
                rw [List.getLast?_cons_cons]
                exact h5
    · rw [untilCheckLoop_promptErr x P C n hP] at h ⊢
      cases k with
      | zero =>
        simp only [promptCalls, List.getElem?_cons_zero, Option.some.injEq, Prod.mk.injEq] at h
        obtain ⟨rfl, rfl, rfl⟩ := h
        simp [promptCalls, checkCalls]
      | succ k => simp [promptCalls] at h

/-- The first Prompter call of a run with at least one iteration receives the caller's
configuration unchanged. -/
theorem untilCheckLoop_first_prompt (C : Option PassphraseChecker) (n : Nat) (arg : GUIEntryArg)
    (st : σ) :
    (promptCalls (untilCheckLoop x P C (n + 1) arg st).log)[0]? =
      some (arg, (P.Prompt st arg).1) := by
  rcases hP : P.Prompt st arg with ⟨⟨res, _ | e⟩, st1⟩
  · rcases C with _ | check
    · rw [untilCheckLoop_nilChecker x P n hP]
      simp [promptCalls]
    · rcases hC : check res.Passphrase with _ | e
      · rw [untilCheckLoop_accept x P check n hP hC]
        simp [promptCalls]
      · rw [untilCheckLoop_reject x P check n hP hC]
        simp [promptCalls]
  · rw [untilCheckLoop_promptErr x P C n hP]
    simp [promptCalls]

/-- The Checker call number `i` (from 0) of a run checks the passphrase returned by
Prompter call number `i`; when it rejects and an iteration is left, Prompter call number
`i + 1` is made with `RetryLabel` set to the text of the checker's error. -/
theorem untilCheckLoop_retry_label (C : Option PassphraseChecker) (n : Nat) (arg : GUIEntryArg)
    (st : σ) (i : Nat) (s : String) (e : GoError)
    (h : (checkCalls (untilCheckLoop x P C n arg st).log)[i]? = some (s, some e))
    (hi : i + 1 < n) :
    ∃ a r q,
      (promptCalls (untilCheckLoop x P C n arg st).log)[i]? = some (a, r, none) ∧
      r.Passphrase = s ∧
      (promptCalls (untilCheckLoop x P C n arg st).log)[i + 1]? = some q ∧
      q.1.RetryLabel = e.Error x := by
  induction n generalizing arg st i with
  | zero => omega
  | succ n ih =>
    rcases hP : P.Prompt st arg with ⟨⟨res, _ | e1⟩, st1⟩
    · rcases C with _ | check
      · rw [untilCheckLoop_nilChecker x P n hP] at h
        simp [checkCalls] at h
      · rcases hC : check res.Passphrase with _ | e2
        · rw [untilCheckLoop_accept x P check n hP hC] at h
          cases i <;> simp [checkCalls] at h
        · rw [untilCheckLoop_reject x P check n hP hC] at h ⊢
          cases i with
          | zero =>
            simp only [checkCalls, List.getElem?_cons_zero, Option.some.injEq,
              Prod.mk.injEq] at h
            obtain ⟨rfl, rfl⟩ := h
            obtain ⟨m, rfl⟩ : ∃ m, n = m + 1 := ⟨n - 1, by omega⟩
            refine ⟨arg, res, ({ arg with RetryLabel := e2.Error x },
              (P.Prompt st1 { arg with RetryLabel := e2.Error x }).1),
              by simp [promptCalls], rfl, ?_, rfl⟩
            simp only [promptCalls, List.getElem?_cons_succ]
            exact untilCheckLoop_first_prompt x P (some check) m _ st1
          | succ i =>
            simp only [checkCalls, List.getElem?_cons_succ] at h
            obtain ⟨a, r, q, h1, h2, h3, h4⟩ := ih _ _ i h (by omega)
            exact ⟨a, r, q, by simpa [promptCalls] using h1, h2,
              by simpa [promptCalls] using h3, h4⟩
    · rw [untilCheckLoop_promptErr x P C n hP] at h
      simp [checkCalls] at h

/-- In the log of a run every Checker call comes right after a Prompter call that
returned without error, and checks the passphrase that call returned. -/
theorem untilCheckLoop_check_follows_prompt (C : Option PassphraseChecker) (n : Nat)
    (arg : GUIEntryArg) (st : σ) (i : Nat) (s : String) (e : Option GoError)
    (h : (untilCheckLoop x P C n arg st).log[i]? = some (.check s e)) :
    ∃ j a r, i = j + 1 ∧
      (untilCheckLoop x P C n arg st).log[j]? = some (.prompt a r none) ∧
      r.Passphrase = s := by
  induction n generalizing arg st i with
  | zero => simp [untilCheckLoop_zero] at h
  | succ n ih =>
    rcases hP : P.Prompt st arg with ⟨⟨res, _ | e1⟩, st1⟩
    · rcases C with _ | check
      · rw [untilCheckLoop_nilChecker x P n hP] at h
        cases i <;> simp at h
      · rcases hC : check res.Passphrase with _ | e2
        · rw [untilCheckLoop_accept x P check n hP hC] at h ⊢
          rcases i with _ | _ | i
          · simp at h
          · simp only [List.getElem?_cons_succ, List.getElem?_cons_zero, Option.some.injEq,
              Event.check.injEq] at h
            exact ⟨0, arg, res, rfl, by simp, h.1⟩
          · simp at h
        · rw [untilCheckLoop_reject x P check n hP hC] at h ⊢
          rcases i with _ | _ | i
          · simp at h
          · simp only [List.getElem?_cons_succ, List.getElem?_cons_zero, Option.some.injEq,
              Event.check.injEq] at h
            exact ⟨0, arg, res, rfl, by simp, h.1⟩
          · simp only [List.getElem?_cons_succ] at h
            obtain ⟨j, a, r, rfl, h1, h2⟩ := ih _ _ i h
            exact ⟨j + 2, a, r, rfl, by simpa using h1, h2⟩
    · rw [untilCheckLoop_promptErr x P C n hP] at h
      cases i <;> simp at h

/-- An error returned by a run is `RetryExhaustedError{}` or the error returned by one of
its Prompter calls. -/
theorem untilCheckLoop_error_origin (C : Option PassphraseChecker) (n : Nat) (arg : GUIEntryArg)
    (st : σ) (e : GoError) (h : (untilCheckLoop x P C n arg st).err = some e) :
    e = .RetryExhaustedError ∨
      ∃ a r, (a, r, some e) ∈ promptCalls (untilCheckLoop x P C n arg st).log := by
  induction n generalizing arg st with
  | zero =>
    simp only [untilCheckLoop_zero, Option.some.injEq] at h
    exact Or.inl h.symm
  | succ n ih =>
    rcases hP : P.Prompt st arg with ⟨⟨res, _ | e1⟩, st1⟩
    · rcases C with _ | check
      · rw [untilCheckLoop_nilChecker x P n hP] at h
        simp at h
      · rcases hC : check res.Passphrase with _ | e2
        · rw [untilCheckLoop_accept x P check n hP hC] at h
          simp at h
        · rw [untilCheckLoop_reject x P check n hP hC] at h ⊢
          rcases ih _ _ h with h1 | ⟨a, r, h1⟩
          · exact Or.inl h1
          · exact Or.inr ⟨a, r, by simp only [promptCalls]; exact List.mem_cons_of_mem _ h1⟩
    · rw [untilCheckLoop_promptErr x P C n hP] at h ⊢
      simp only [Option.some.injEq] at h
      subst h
      exact Or.inr ⟨arg, res, by simp [promptCalls]⟩

/-- When all `n` iterations ran, every Prompter call returned without error and the
checker rejected every passphrase, the run returns `RetryExhaustedError{}`. -/
theorem untilCheckLoop_exhausted (check : PassphraseChecker) (n : Nat) (arg : GUIEntryArg)
    (st : σ)
    (hlen : (promptCalls (untilCheckLoop x P (some check) n arg st).log).length = n)
    (hall : ∀ q ∈ promptCalls (untilCheckLoop x P (some check) n arg st).log,
      q.2.2 = none ∧ check q.2.1.Passphrase ≠ none) :
    (untilCheckLoop x P (some check) n arg st).err = some .RetryExhaustedError := by
  induction n generalizing arg st with
  | zero => simp [untilCheckLoop_zero]
  | succ n ih =>
    rcases hP : P.Prompt st arg with ⟨⟨res, _ | e1⟩, st1⟩
    · rcases hC : check res.Passphrase with _ | e2
      · rw [untilCheckLoop_accept x P check n hP hC] at hall
        exact absurd hC (hall (arg, res, none) (by simp [promptCalls])).2
      · rw [untilCheckLoop_reject x P check n hP hC] at hall hlen ⊢
        simp only [promptCalls, List.length_cons, Nat.succ.injEq] at hlen
        exact ih _ _ (by simpa using hlen)
          (fun q hq => hall q (by simp only [promptCalls]; exact List.mem_cons_of_mem _ hq))
    · rw [untilCheckLoop_promptErr x P (some check) n hP] at hall
      have := (hall (arg, res, some e1) (by simp [promptCalls])).1
      simp at this

end Loop

/-! ## Strings -/

/-- Go's `len(s) == 0` holds for the empty string only. -/
theorem utf8ByteSize_eq_zero_iff (s : String) : s.utf8ByteSize = 0 ↔ s = "" := by
  rcases s with ⟨cs⟩
  rw [String.utf8ByteSize_mk, String.utf8Len_eq_zero]
  constructor
  · rintro rfl
    rfl
  · intro h
    exact congrArg String.data h

/-! ## `GetPassphraseUntilCheck` -/

section UntilCheck

variable {σ : Type} (x : String) (arg : GUIEntryArg) (P : PassphrasePrompter σ) (st : σ)

/-- C1. For every non-nil checker, configuration and prompter, `GetPassphraseUntilCheck`
returns without error if and only if one of the Prompter calls it makes, among the first
ten, returns without error a passphrase for which the checker returns nil. -/
theorem GetPassphraseUntilCheck_accepted_iff (check : PassphraseChecker) :
    (GetPassphraseUntilCheck x arg P st (some check)).err = none ↔
      ∃ k, k < 10 ∧ ∃ a r,
        (promptCalls (GetPassphraseUntilCheck x arg P st (some check)).log)[k]? =
          some (a, r, none) ∧
        check r.Passphrase = none :=
  untilCheckLoop_err_none_iff x P check 10 arg st

/-- C2. When `GetPassphraseUntilCheck` succeeds with a non-nil checker, the result it
returns is the pair returned by its last Prompter call, unchanged; the checker accepts its
passphrase; and every earlier Prompter call returned, without error, a passphrase the
checker rejected.  So the accepted attempt is the first one accepted and no Prompter call
follows it. -/
theorem GetPassphraseUntilCheck_returns_first_accepted (check : PassphraseChecker)
    (h : (GetPassphraseUntilCheck x arg P st (some check)).err = none) :
    ∃ pre a,
      promptCalls (GetPassphraseUntilCheck x arg P st (some check)).log =
        pre ++ [(a, (GetPassphraseUntilCheck x arg P st (some check)).res, none)] ∧
      check (GetPassphraseUntilCheck x arg P st (some check)).res.Passphrase = none ∧
      ∀ q ∈ pre, q.2.2 = none ∧ check q.2.1.Passphrase ≠ none :=
  untilCheckLoop_success_last x P check 10 arg st h

/-- C3. If the Prompter never errors and always returns the same candidate `p`, and the
checker rejects `p`, then `GetPassphraseUntilCheck` makes exactly 10 Prompter calls and
returns `RetryExhaustedError{}` with the zero result; it does not return success.  The 10
calls are calls of the given prompter, one after the other: the first on the caller's
configuration in the caller's state, call `k + 2` on that configuration with `RetryLabel`
set to the text of the checker's error `e`, in the state the prompter has reached after
`k + 1` calls; the checker is called 10 times, on `p`; and the prompter is left in the
state it reaches after the 10 calls. -/
theorem GetPassphraseUntilCheck_same_rejected (check : PassphraseChecker) (p : String)
    (hP : ∀ st arg, (P.Prompt st arg).1.2 = none ∧ (P.Prompt st arg).1.1.Passphrase = p)
    (hC : check p ≠ none) :
    (promptCalls (GetPassphraseUntilCheck x arg P st (some check)).log).length = 10 ∧
      (GetPassphraseUntilCheck x arg P st (some check)).err = some .RetryExhaustedError ∧
      (GetPassphraseUntilCheck x arg P st (some check)).res = GetPassphraseRes.zero ∧
      (GetPassphraseUntilCheck x arg P st (some check)).err ≠ none ∧
      ∃ e, check p = some e ∧
        (promptCalls (GetPassphraseUntilCheck x arg P st (some check)).log)[0]? =
          some (arg, (P.Prompt st arg).1) ∧
        (∀ k, k < 9 →
          (promptCalls (GetPassphraseUntilCheck x arg P st (some check)).log)[k + 1]? =
            some ({ arg with RetryLabel := e.Error x },
              (P.Prompt
                (Nat.iterate (fun s => (P.Prompt s { arg with RetryLabel := e.Error x }).2) k
                  (P.Prompt st arg).2)
                { arg with RetryLabel := e.Error x }).1)) ∧
        checkCalls (GetPassphraseUntilCheck x arg P st (some check)).log =
          List.replicate 10 (p, some e) ∧
        (GetPassphraseUntilCheck x arg P st (some check)).state =
          Nat.iterate (fun s => (P.Prompt s { arg with RetryLabel := e.Error x }).2) 9
            (P.Prompt st arg).2 := by
  obtain ⟨h1, h2, h3⟩ := untilCheckLoop_always_rejected x P check p hP hC 10 arg st
  refine ⟨h1, h2, h3, ?_, ?_⟩
  · unfold GetPassphraseUntilCheck
    rw [h2]
    simp
  · rcases hc : check p with _ | e
    · exact absurd hc hC
    · refine ⟨e, rfl, untilCheckLoop_first_prompt x P (some check) 9 arg st, ?_⟩
      rcases hq : P.Prompt st arg with ⟨⟨res, err⟩, st1⟩
      have h4 := hP st arg
      rw [hq] at h4
      obtain ⟨herr, hpass⟩ := h4
      simp only at herr hpass
      subst herr
      have hc1 : check res.Passphrase = some e := by rw [hpass, hc]
      obtain ⟨h5, h6, h7⟩ := untilCheckLoop_always_rejected_calls x P check p e hP hc 9
        { arg with RetryLabel := e.Error x } rfl st1
      unfold GetPassphraseUntilCheck
      rw [untilCheckLoop_reject x P check 9 hq hc1]
      refine ⟨?_, ?_, ?_⟩
      · intro k hk
        simp only [promptCalls, List.getElem?_cons_succ]
        exact h5 k hk
      · simp only [checkCalls, h6, hpass, List.replicate_succ]
      · exact h7

/-- C4. If Prompter call number `k` (from 1) of a run of `GetPassphraseUntilCheck` returns
an error, then the run returns exactly that error with the zero result, makes exactly `k`
Prompter calls, `k ≤ 10`, and makes `k - 1` Checker calls, the log ending with that
Prompter call: the checker is not called on attempt `k`.  (That the earlier attempts were
rejected need not be assumed: otherwise call number `k` is not made.) -/
theorem GetPassphraseUntilCheck_prompt_error (C : Option PassphraseChecker) (k : Nat)
    (a : GUIEntryArg) (r : GetPassphraseRes) (e : GoError) (hk : 1 ≤ k)
    (h : (promptCalls (GetPassphraseUntilCheck x arg P st C).log)[k - 1]? =
      some (a, r, some e)) :
    (GetPassphraseUntilCheck x arg P st C).err = some e ∧
      (GetPassphraseUntilCheck x arg P st C).res = GetPassphraseRes.zero ∧
      (promptCalls (GetPassphraseUntilCheck x arg P st C).log).length = k ∧
      k ≤ 10 ∧
      (checkCalls (GetPassphraseUntilCheck x arg P st C).log).length = k - 1 ∧
      (GetPassphraseUntilCheck x arg P st C).log.getLast? = some (.prompt a r (some e)) := by
  obtain ⟨h1, h2, h3, h4, h5⟩ := untilCheckLoop_prompt_error x P C 10 arg st (k - 1) a r e h
  have h6 := (untilCheckLoop_call_counts x P C 10 arg st).1
  unfold GetPassphraseUntilCheck
  refine ⟨h1, h2, ?_, ?_, h4, h5⟩ <;> omega

/-- C5. In a run of `GetPassphraseUntilCheck`, for every attempt `n` from 1 to 9 whose
Checker call (on the passphrase returned by Prompter call `n`) returns an error `e`,
Prompter call `n + 1` is made and the configuration it receives has `RetryLabel` equal to
`e.Error()`. -/
theorem GetPassphraseUntilCheck_retry_label (C : Option PassphraseChecker) (n : Nat)
    (s : String) (e : GoError) (hn1 : 1 ≤ n) (hn9 : n ≤ 9)
    (h : (checkCalls (GetPassphraseUntilCheck x arg P st C).log)[n - 1]? = some (s, some e)) :
    ∃ a r q,
      (promptCalls (GetPassphraseUntilCheck x arg P st C).log)[n - 1]? = some (a, r, none) ∧
      r.Passphrase = s ∧
      (promptCalls (GetPassphraseUntilCheck x arg P st C).log)[n]? = some q ∧
      q.1.RetryLabel = e.Error x := by
  obtain ⟨a, r, q, h1, h2, h3, h4⟩ :=
    untilCheckLoop_retry_label x P C 10 arg st (n - 1) s e h (by omega)
  have hn : n - 1 + 1 = n := by omega
  rw [hn] at h3
  exact ⟨a, r, q, h1, h2, h3, h4⟩

/-- C6. For every Prompter call made during one run of `GetPassphraseUntilCheck`, every
field of the configuration it receives other than `RetryLabel` (window title, prompt,
username, submit and cancel labels, type, both feature toggles) equals the corresponding
field of the configuration the caller supplied. -/
theorem GetPassphraseUntilCheck_frame (C : Option PassphraseChecker) :
    ∀ q ∈ promptCalls (GetPassphraseUntilCheck x arg P st C).log,
      q.1.WindowTitle = arg.WindowTitle ∧ q.1.Prompt = arg.Prompt ∧
      q.1.Username = arg.Username ∧ q.1.SubmitLabel = arg.SubmitLabel ∧
      q.1.CancelLabel = arg.CancelLabel ∧ q.1.Type_ = arg.Type_ ∧
      q.1.Features = arg.Features :=
  untilCheckLoop_frame x P C 10 arg st

/-- C7. For every prompter and every checker (nil or not), a run of
`GetPassphraseUntilCheck`, which is a total function, makes at most 10 Prompter calls and
at most as many Checker calls as Prompter calls; every Checker call in its log comes right
after a Prompter call, of which it checks the returned passphrase, so the checker is called
at most once per Prompter call. -/
theorem GetPassphraseUntilCheck_bounded (C : Option PassphraseChecker) :
    (promptCalls (GetPassphraseUntilCheck x arg P st C).log).length ≤ 10 ∧
      (checkCalls (GetPassphraseUntilCheck x arg P st C).log).length ≤
        (promptCalls (GetPassphraseUntilCheck x arg P st C).log).length ∧
      ∀ i s e, (GetPassphraseUntilCheck x arg P st C).log[i]? = some (.check s e) →
        ∃ j a r, i = j + 1 ∧
          (GetPassphraseUntilCheck x arg P st C).log[j]? = some (.prompt a r none) ∧
          r.Passphrase = s :=
  ⟨(untilCheckLoop_call_counts x P C 10 arg st).1, (untilCheckLoop_call_counts x P C 10 arg st).2,
    fun i s e h => untilCheckLoop_check_follows_prompt x P C 10 arg st i s e h⟩

/-- C8. For every prompter and checker, any error `GetPassphraseUntilCheck` returns is the
error returned by one of its Prompter calls or `RetryExhaustedError{}`, never a checker
rejection as such; and it returns `RetryExhaustedError{}` whenever it made 10 Prompter
calls that all returned without error and whose passphrases the checker all rejected. -/
theorem GetPassphraseUntilCheck_error_kinds (C : Option PassphraseChecker) :
    (∀ e, (GetPassphraseUntilCheck x arg P st C).err = some e →
      e = .RetryExhaustedError ∨
        ∃ a r, (a, r, some e) ∈ promptCalls (GetPassphraseUntilCheck x arg P st C).log) ∧
    (∀ check : PassphraseChecker, C = some check →
      (promptCalls (GetPassphraseUntilCheck x arg P st C).log).length = 10 →
      (∀ q ∈ promptCalls (GetPassphraseUntilCheck x arg P st C).log,
        q.2.2 = none ∧ check q.2.1.Passphrase ≠ none) →
      (GetPassphraseUntilCheck x arg P st C).err = some .RetryExhaustedError) := by
  refine ⟨fun e h => untilCheckLoop_error_origin x P C 10 arg st e h, ?_⟩
  rintro check rfl hlen hall
  exact untilCheckLoop_exhausted x P check 10 arg st hlen hall

end UntilCheck

/-! ## Witnesses for the retry loop -/

theorem GetPassphraseUntilCheck_returns_first_accepted_witness :
    (GetPassphraseUntilCheck "exhausted" (DefaultPassphraseArg true) scriptedPrompter
        exampleScript (some exampleChecker)).err = none ∧
    ∃ pre a,
      promptCalls (GetPassphraseUntilCheck "exhausted" (DefaultPassphraseArg true)
          scriptedPrompter exampleScript (some exampleChecker)).log =
        pre ++ [(a, (GetPassphraseUntilCheck "exhausted" (DefaultPassphraseArg true)
          scriptedPrompter exampleScript (some exampleChecker)).res, none)] ∧
      exampleChecker (GetPassphraseUntilCheck "exhausted" (DefaultPassphraseArg true)
          scriptedPrompter exampleScript (some exampleChecker)).res.Passphrase = none ∧
      ∀ q ∈ pre, q.2.2 = none ∧ exampleChecker q.2.1.Passphrase ≠ none :=
  ⟨by decide,
    GetPassphraseUntilCheck_returns_first_accepted "exhausted" (DefaultPassphraseArg true)
      scriptedPrompter exampleScript exampleChecker (by decide)⟩

theorem GetPassphraseUntilCheck_same_rejected_witness :
    exampleChecker "a" ≠ none ∧
    (promptCalls (GetPassphraseUntilCheck "exhausted" (DefaultPassphraseArg true)
        (countingPrompter "a") 0 (some exampleChecker)).log).length = 10 ∧
    (GetPassphraseUntilCheck "exhausted" (DefaultPassphraseArg true)
        (countingPrompter "a") 0 (some exampleChecker)).err = some .RetryExhaustedError ∧
    (GetPassphraseUntilCheck "exhausted" (DefaultPassphraseArg true)
        (countingPrompter "a") 0 (some exampleChecker)).state = 10 ∧
    (promptCalls (GetPassphraseUntilCheck "exhausted" (DefaultPassphraseArg true)
        (countingPrompter "a") 0 (some exampleChecker)).log)[9]? =
      some ({ DefaultPassphraseArg true with RetryLabel := "bad: a" },
        { Passphrase := "a", StoreSecret := false }, none) ∧
    ∃ e, exampleChecker "a" = some e ∧
      (GetPassphraseUntilCheck "exhausted" (DefaultPassphraseArg true)
        (countingPrompter "a") 0 (some exampleChecker)).state =
        Nat.iterate
          (fun s => ((countingPrompter "a").Prompt s
            { DefaultPassphraseArg true with RetryLabel := e.Error "exhausted" }).2) 9
          ((countingPrompter "a").Prompt 0 (DefaultPassphraseArg true)).2 :=
  have h := GetPassphraseUntilCheck_same_rejected "exhausted" (DefaultPassphraseArg true)
    (countingPrompter "a") 0 exampleChecker "a" (fun _ _ => ⟨rfl, rfl⟩) (by decide)
  ⟨by decide, h.1, h.2.1, by decide, by decide,
    h.2.2.2.2.elim fun e he => ⟨e, he.1, he.2.2.2.2⟩⟩

theorem GetPassphraseUntilCheck_prompt_error_witness :
    (promptCalls (GetPassphraseUntilCheck "exhausted" (DefaultPassphraseArg true)
        scriptedPrompter cancelScript (some exampleChecker)).log)[2 - 1]? =
      some ({ DefaultPassphraseArg true with RetryLabel := "bad: a" },
        { Passphrase := "", StoreSecret := false }, some (.other 7 "canceled")) ∧
    (GetPassphraseUntilCheck "exhausted" (DefaultPassphraseArg true)
        scriptedPrompter cancelScript (some exampleChecker)).err = some (.other 7 "canceled") ∧
    (promptCalls (GetPassphraseUntilCheck "exhausted" (DefaultPassphraseArg true)
        scriptedPrompter cancelScript (some exampleChecker)).log).length = 2 ∧
    (checkCalls (GetPassphraseUntilCheck "exhausted" (DefaultPassphraseArg true)
        scriptedPrompter cancelScript (some exampleChecker)).log).length = 2 - 1 :=
  have h := GetPassphraseUntilCheck_prompt_error "exhausted" (DefaultPassphraseArg true)
    scriptedPrompter cancelScript (some exampleChecker) 2
    { DefaultPassphraseArg true with RetryLabel := "bad: a" }
    { Passphrase := "", StoreSecret := false } (.other 7 "canceled") (by decide) (by decide)
  ⟨by decide, h.1, h.2.2.1, h.2.2.2.2.1⟩

theorem GetPassphraseUntilCheck_retry_label_witness :
    (checkCalls (GetPassphraseUntilCheck "exhausted" (DefaultPassphraseArg true)
        scriptedPrompter exampleScript (some exampleChecker)).log)[1 - 1]? =
      some ("a", some (.errorString "bad: a")) ∧
    ∃ a r q,
      (promptCalls (GetPassphraseUntilCheck "exhausted" (DefaultPassphraseArg true)
        scriptedPrompter exampleScript (some exampleChecker)).log)[1 - 1]? =
        some (a, r, none) ∧
      r.Passphrase = "a" ∧
      (promptCalls (GetPassphraseUntilCheck "exhausted" (DefaultPassphraseArg true)
        scriptedPrompter exampleScript (some exampleChecker)).log)[1]? = some q ∧
      q.1.RetryLabel = (GoError.errorString "bad: a").Error "exhausted" :=
  ⟨by decide,
    GetPassphraseUntilCheck_retry_label "exhausted" (DefaultPassphraseArg true)
      scriptedPrompter exampleScript (some exampleChecker) 1 "a" (.errorString "bad: a")
      (by decide) (by decide) (by decide)⟩

theorem GetPassphraseUntilCheck_frame_witness :
    (({ DefaultPassphraseArg true with RetryLabel := "bad: a" },
        { Passphrase := "good", StoreSecret := true }, none) :
        GUIEntryArg × GetPassphraseRes × Option GoError) ∈
      promptCalls (GetPassphraseUntilCheck "exhausted" (DefaultPassphraseArg true)
        scriptedPrompter exampleScript (some exampleChecker)).log ∧
    ({ DefaultPassphraseArg true with RetryLabel := "bad: a" } : GUIEntryArg).Features =
      (DefaultPassphraseArg true).Features :=
  ⟨by decide,
    (GetPassphraseUntilCheck_frame "exhausted" (DefaultPassphraseArg true)
      scriptedPrompter exampleScript (some exampleChecker)
      ({ DefaultPassphraseArg true with RetryLabel := "bad: a" },
        { Passphrase := "good", StoreSecret := true }, none) (by decide)).2.2.2.2.2.2⟩

theorem GetPassphraseUntilCheck_bounded_witness :
    (GetPassphraseUntilCheck "exhausted" (DefaultPassphraseArg true)
        scriptedPrompter exampleScript (some exampleChecker)).log[1]? =
      some (.check "a" (some (.errorString "bad: a"))) ∧
    ∃ j a r, 1 = j + 1 ∧
      (GetPassphraseUntilCheck "exhausted" (DefaultPassphraseArg true)
        scriptedPrompter exampleScript (some exampleChecker)).log[j]? =
        some (.prompt a r none) ∧
      r.Passphrase = "a" :=
  ⟨by decide,
    (GetPassphraseUntilCheck_bounded "exhausted" (DefaultPassphraseArg true)
      scriptedPrompter exampleScript (some exampleChecker)).2.2 1 "a"
      (some (.errorString "bad: a")) (by decide)⟩

theorem GetPassphraseUntilCheck_error_kinds_witness :
    (promptCalls (GetPassphraseUntilCheck "exhausted" (DefaultPassphraseArg true)
        (constPrompter { Passphrase := "a", StoreSecret := false }) ()
        (some exampleChecker)).log).length = 10 ∧
    (∀ q ∈ promptCalls (GetPassphraseUntilCheck "exhausted" (DefaultPassphraseArg true)
        (constPrompter { Passphrase := "a", StoreSecret := false }) ()
        (some exampleChecker)).log,
      q.2.2 = none ∧ exampleChecker q.2.1.Passphrase ≠ none) ∧
    (GetPassphraseUntilCheck "exhausted" (DefaultPassphraseArg true)
        (constPrompter { Passphrase := "a", StoreSecret := false }) ()
        (some exampleChecker)).err = some .RetryExhaustedError :=
  ⟨by decide, by decide,
    (GetPassphraseUntilCheck_error_kinds "exhausted" (DefaultPassphraseArg true)
      (constPrompter { Passphrase := "a", StoreSecret := false }) ()
      (some exampleChecker)).2 exampleChecker rfl (by decide) (by decide)⟩

/-! ## Configuration errors -/

/-- C9. Configuration errors fail before any prompting.
`GetPassphraseUntilCheckWithChecker` called with a nil checker returns the error
`errors.New("nil passphrase checker")` with the zero result, makes no call at all and
leaves the prompter as it was; `GetPaperKeyForCryptoPassphrase` called with an empty device
list returns the error `errors.New("empty device list")` with the empty string, makes no
call at all and leaves the UI as it was. -/
theorem configuration_errors_before_prompting {σ φ : Type} (x : String) (arg : GUIEntryArg)
    (P : PassphrasePrompter σ) (pk : PaperKeyOps φ) (ui : SecretUI σ) (st : σ)
    (reason : String) :
    ((GetPassphraseUntilCheckWithChecker x arg P st none).err =
        some (.errorString "nil passphrase checker") ∧
      (GetPassphraseUntilCheckWithChecker x arg P st none).res = GetPassphraseRes.zero ∧
      promptCalls (GetPassphraseUntilCheckWithChecker x arg P st none).log = [] ∧
      (GetPassphraseUntilCheckWithChecker x arg P st none).log = [] ∧
      (GetPassphraseUntilCheckWithChecker x arg P st none).state = st) ∧
    ∃ r, GetPaperKeyForCryptoPassphrase x pk ui st reason [] = some r ∧
      r.err = some (.errorString "empty device list") ∧
      r.str = "" ∧ promptCalls r.log = [] ∧ r.log = [] ∧ r.state = st := by
  refine ⟨⟨rfl, rfl, rfl, rfl, rfl⟩, ?_⟩
  exact ⟨_, rfl, rfl, rfl, rfl, rfl, rfl⟩

/-! ## The paper key checker -/

/-- C10. `PaperChecker.Check` returns nil for a candidate `s` if and only if the phrase
parsed from `s` has a non-empty string, has no invalid words, decodes a version without
error, and that version equals `PaperKeyVersion`. -/
theorem PaperChecker_Check_eq_none_iff {φ : Type} (pk : PaperKeyOps φ) (s : String) :
    PaperChecker.Check pk s = none ↔
      pk.String (pk.NewPaperKeyPhrase s) ≠ "" ∧
      pk.InvalidWords (pk.NewPaperKeyPhrase s) = [] ∧
      (pk.Version (pk.NewPaperKeyPhrase s)).2 = none ∧
      (pk.Version (pk.NewPaperKeyPhrase s)).1 = pk.PaperKeyVersion := by
  unfold PaperChecker.Check
  simp only
  by_cases hempty : (pk.String (pk.NewPaperKeyPhrase s)).utf8ByteSize = 0
  · have hstr := (utf8ByteSize_eq_zero_iff _).1 hempty
    rw [if_pos hempty]
    simp [hstr]
  · have hne : pk.String (pk.NewPaperKeyPhrase s) ≠ "" :=
      fun h => hempty ((utf8ByteSize_eq_zero_iff _).2 h)
    rw [if_neg hempty]
    by_cases hinv : (pk.InvalidWords (pk.NewPaperKeyPhrase s)).length > 0
    · have hnil : pk.InvalidWords (pk.NewPaperKeyPhrase s) ≠ [] := by
        intro h
        rw [h] at hinv
        simp at hinv
      rw [dif_pos hinv]
      by_cases hmany : (pk.InvalidWords (pk.NewPaperKeyPhrase s)).length > 1
      · simp [hmany, hnil]
      · simp [hmany, hnil]
    · have hnil : pk.InvalidWords (pk.NewPaperKeyPhrase s) = [] := by
        rcases h : pk.InvalidWords (pk.NewPaperKeyPhrase s) with _ | ⟨w, ws⟩
        · rfl
        · rw [h] at hinv
          simp at hinv
      rw [dif_neg hinv]
      rcases hv : pk.Version (pk.NewPaperKeyPhrase s) with ⟨version, _ | err⟩
      · by_cases hver : version = pk.PaperKeyVersion
        · simp [hne, hnil, hver]
        · simp [hne, hnil, hver]
      · simp

/-! ## The stages of `PaperChecker.Check` -/

section PaperStages

variable {φ : Type} (pk : PaperKeyOps φ) (s : String)

theorem PaperChecker_Check_of_empty (hempty : pk.String (pk.NewPaperKeyPhrase s) = "") :
    PaperChecker.Check pk s = some (.errorString "Empty paper key. Please try again.") := by
  unfold PaperChecker.Check
  simp only
  rw [if_pos ((utf8ByteSize_eq_zero_iff _).2 hempty)]

theorem PaperChecker_Check_of_one_invalid (hne : pk.String (pk.NewPaperKeyPhrase s) ≠ "")
    (w : String) (hinv : pk.InvalidWords (pk.NewPaperKeyPhrase s) = [w]) :
    PaperChecker.Check pk s =
      some (.errorString ("Please try again. This word is invalid: " ++ w)) := by
  unfold PaperChecker.Check
  simp only
  rw [if_neg (fun h => hne ((utf8ByteSize_eq_zero_iff _).1 h))]
  simp [hinv]

theorem PaperChecker_Check_of_many_invalid (hne : pk.String (pk.NewPaperKeyPhrase s) ≠ "")
    (hinv : 2 ≤ (pk.InvalidWords (pk.NewPaperKeyPhrase s)).length) :
    PaperChecker.Check pk s =
      some (.errorString ("Please try again. These words are invalid: " ++
        ", ".intercalate (pk.InvalidWords (pk.NewPaperKeyPhrase s)))) := by
  unfold PaperChecker.Check
  simp only
  rw [if_neg (fun h => hne ((utf8ByteSize_eq_zero_iff _).1 h))]
  have h0 : (pk.InvalidWords (pk.NewPaperKeyPhrase s)).length > 0 := by omega
  have h1 : (pk.InvalidWords (pk.NewPaperKeyPhrase s)).length > 1 := by omega
  rw [dif_pos h0, if_pos h1]

theorem PaperChecker_Check_of_version_error (hne : pk.String (pk.NewPaperKeyPhrase s) ≠ "")
    (hinv : pk.InvalidWords (pk.NewPaperKeyPhrase s) = [])
    (hver : (pk.Version (pk.NewPaperKeyPhrase s)).2 ≠ none) :
    PaperChecker.Check pk s =
      some (.errorString
        "It looks like there was a typo in the paper key. Please try again.") := by
  unfold PaperChecker.Check
  simp only
  rw [if_neg (fun h => hne ((utf8ByteSize_eq_zero_iff _).1 h))]
  rcases hv : pk.Version (pk.NewPaperKeyPhrase s) with ⟨version, _ | err⟩
  · rw [hv] at hver
    exact absurd rfl hver
  · simp [hinv]

theorem PaperChecker_Check_of_version_mismatch
    (hne : pk.String (pk.NewPaperKeyPhrase s) ≠ "")
    (hinv : pk.InvalidWords (pk.NewPaperKeyPhrase s) = [])
    (hver : (pk.Version (pk.NewPaperKeyPhrase s)).2 = none)
    (hmis : (pk.Version (pk.NewPaperKeyPhrase s)).1 ≠ pk.PaperKeyVersion) :
    PaperChecker.Check pk s =
      some (.errorString
        "It looks like there was a typo. The paper key you entered had an invalid version. Please try again.") := by
  unfold PaperChecker.Check
  simp only
  rw [if_neg (fun h => hne ((utf8ByteSize_eq_zero_iff _).1 h))]
  rcases hv : pk.Version (pk.NewPaperKeyPhrase s) with ⟨version, _ | err⟩
  · rw [hv] at hmis
    simp only at hmis
    simp [hinv, hmis]
  · rw [hv] at hver
    simp at hver

theorem PaperChecker_Check_of_valid (hne : pk.String (pk.NewPaperKeyPhrase s) ≠ "")
    (hinv : pk.InvalidWords (pk.NewPaperKeyPhrase s) = [])
    (hver : (pk.Version (pk.NewPaperKeyPhrase s)).2 = none)
    (hsame : (pk.Version (pk.NewPaperKeyPhrase s)).1 = pk.PaperKeyVersion) :
    PaperChecker.Check pk s = none := by
  unfold PaperChecker.Check
  simp only
  rw [if_neg (fun h => hne ((utf8ByteSize_eq_zero_iff _).1 h))]
  rcases hv : pk.Version (pk.NewPaperKeyPhrase s) with ⟨version, _ | err⟩
  · rw [hv] at hsame
    simp only at hsame
    simp [hinv, hsame]
  · rw [hv] at hver
    simp at hver

end PaperStages

/-! ## Joined strings -/

/-- The accumulator of `strings.Join` is a prefix of its result. -/
theorem intercalate_go_prefix (sep : String) (l : List String) (acc : String) :
    ∃ post, String.intercalate.go acc sep l = acc ++ post := by
  induction l generalizing acc with
  | nil => exact ⟨"", by simp [String.intercalate.go]⟩
  | cons a l ih =>
    obtain ⟨post, h⟩ := ih (acc ++ sep ++ a)
    refine ⟨sep ++ a ++ post, ?_⟩
    show String.intercalate.go (acc ++ sep ++ a) sep l = _
    rw [h]
    simp only [String.append_assoc]

/-- Every element joined after the accumulator occurs in the result. -/
theorem intercalate_go_mem (sep : String) (l : List String) (acc d : String) (hd : d ∈ l) :
    ∃ pre post, String.intercalate.go acc sep l = pre ++ d ++ post := by
  induction l generalizing acc with
  | nil => simp at hd
  | cons a l ih =>
    rcases List.mem_cons.1 hd with rfl | hd
    · obtain ⟨post, h⟩ := intercalate_go_prefix sep l (acc ++ sep ++ d)
      exact ⟨acc ++ sep, post, h⟩
    · obtain ⟨pre, post, h⟩ := ih (acc ++ sep ++ a) hd
      exact ⟨pre, post, h⟩

/-- Every element of a list occurs in the list joined with a separator. -/
theorem intercalate_mem (sep : String) (l : List String) (d : String) (hd : d ∈ l) :
    ∃ pre post, sep.intercalate l = pre ++ d ++ post := by
  rcases l with _ | ⟨a, l⟩
  · simp at hd
  · rcases List.mem_cons.1 hd with rfl | hd
    · obtain ⟨post, h⟩ := intercalate_go_prefix sep l d
      refine ⟨"", post, ?_⟩
      show String.intercalate.go d sep l = _
      rw [h, String.empty_append]
    · obtain ⟨pre, post, h⟩ := intercalate_go_mem sep l a d hd
      exact ⟨pre, post, h⟩

/-- A string other than the empty one has a positive length. -/
theorem length_pos_of_ne_empty (s : String) (h : s ≠ "") : 0 < s.length := by
  rcases s with ⟨cs⟩
  rcases cs with _ | ⟨c, cs⟩
  · exact absurd rfl h
  · simp [String.length]

/-! ## The checkers -/

/-- C11. `PaperChecker.Check` is short-circuiting in stage order.  An empty phrase string
gives "Empty paper key. Please try again." whatever the invalid words and the version are;
otherwise a non-empty list of invalid words gives an invalid-word message (singular for one
word, plural for more) whatever the version is; otherwise a version that fails to decode
gives "It looks like there was a typo in the paper key. Please try again."; otherwise a
version other than `PaperKeyVersion` gives the distinct invalid-version message. -/
theorem PaperChecker_Check_stage_order {φ : Type} (pk : PaperKeyOps φ) (s : String) :
    (pk.String (pk.NewPaperKeyPhrase s) = "" →
      PaperChecker.Check pk s = some (.errorString "Empty paper key. Please try again.")) ∧
    (pk.String (pk.NewPaperKeyPhrase s) ≠ "" →
      ∀ w ws, pk.InvalidWords (pk.NewPaperKeyPhrase s) = w :: ws →
        PaperChecker.Check pk s = some (.errorString
          (if ws = [] then "Please try again. This word is invalid: " ++ w
           else "Please try again. These words are invalid: " ++
             ", ".intercalate (w :: ws)))) ∧
    (pk.String (pk.NewPaperKeyPhrase s) ≠ "" →
      pk.InvalidWords (pk.NewPaperKeyPhrase s) = [] →
      (pk.Version (pk.NewPaperKeyPhrase s)).2 ≠ none →
      PaperChecker.Check pk s = some (.errorString
        "It looks like there was a typo in the paper key. Please try again.")) ∧
    (pk.String (pk.NewPaperKeyPhrase s) ≠ "" →
      pk.InvalidWords (pk.NewPaperKeyPhrase s) = [] →
      (pk.Version (pk.NewPaperKeyPhrase s)).2 = none →
      (pk.Version (pk.NewPaperKeyPhrase s)).1 ≠ pk.PaperKeyVersion →
      PaperChecker.Check pk s = some (.errorString
        "It looks like there was a typo. The paper key you entered had an invalid version. Please try again.") ∧
      ("It looks like there was a typo. The paper key you entered had an invalid version. Please try again." : String) ≠
        "It looks like there was a typo in the paper key. Please try again.") := by
  refine ⟨PaperChecker_Check_of_empty pk s, ?_, PaperChecker_Check_of_version_error pk s, ?_⟩
  · intro hne w ws hinv
    rcases ws with _ | ⟨w2, ws⟩
    · rw [PaperChecker_Check_of_one_invalid pk s hne w hinv]
      simp
    · rw [PaperChecker_Check_of_many_invalid pk s hne (by simp [hinv]), hinv]
      simp
  · intro hne hinv hver hmis
    exact ⟨PaperChecker_Check_of_version_mismatch pk s hne hinv hver hmis, by decide⟩

theorem PaperChecker_Check_stage_order_witness :
    toyPaperKey.String (toyPaperKey.NewPaperKeyPhrase "alpha beta") ≠ "" ∧
    toyPaperKey.InvalidWords (toyPaperKey.NewPaperKeyPhrase "alpha beta") = [] ∧
    (toyPaperKey.Version (toyPaperKey.NewPaperKeyPhrase "alpha beta")).2 = none ∧
    (toyPaperKey.Version (toyPaperKey.NewPaperKeyPhrase "alpha beta")).1 ≠
      toyPaperKey.PaperKeyVersion ∧
    PaperChecker.Check toyPaperKey "alpha beta" = some (.errorString
      "It looks like there was a typo. The paper key you entered had an invalid version. Please try again.") :=
  ⟨by decide, by decide, by decide, by decide,
    ((PaperChecker_Check_stage_order toyPaperKey "alpha beta").2.2.2
      (by decide) (by decide) (by decide) (by decide)).1⟩

/-- C12. For every candidate whose parsed phrase is non-empty and has a non-empty list of
invalid words, `PaperChecker.Check` rejects with a message that names every invalid word:
with exactly one invalid word `w` the message is "Please try again. This word is invalid: "
followed by `w`, and with two or more it is "Please try again. These words are invalid: "
followed by all the invalid words in order joined by ", ". -/
theorem PaperChecker_Check_invalid_words {φ : Type} (x : String) (pk : PaperKeyOps φ)
    (s : String) (hne : pk.String (pk.NewPaperKeyPhrase s) ≠ "")
    (hinv : pk.InvalidWords (pk.NewPaperKeyPhrase s) ≠ []) :
    (∀ w, pk.InvalidWords (pk.NewPaperKeyPhrase s) = [w] →
      PaperChecker.Check pk s =
        some (.errorString ("Please try again. This word is invalid: " ++ w))) ∧
    (2 ≤ (pk.InvalidWords (pk.NewPaperKeyPhrase s)).length →
      PaperChecker.Check pk s =
        some (.errorString ("Please try again. These words are invalid: " ++
          ", ".intercalate (pk.InvalidWords (pk.NewPaperKeyPhrase s))))) ∧
    ∃ e, PaperChecker.Check pk s = some e ∧
      ∀ w ∈ pk.InvalidWords (pk.NewPaperKeyPhrase s),
        ∃ pre post, e.Error x = pre ++ w ++ post := by
  refine ⟨PaperChecker_Check_of_one_invalid pk s hne,
    PaperChecker_Check_of_many_invalid pk s hne, ?_⟩
  rcases hl : pk.InvalidWords (pk.NewPaperKeyPhrase s) with _ | ⟨w, _ | ⟨w2, ws⟩⟩
  · exact absurd hl hinv
  · refine ⟨_, PaperChecker_Check_of_one_invalid pk s hne w hl, ?_⟩
    intro v hv
    rw [List.mem_singleton] at hv
    subst hv
    exact ⟨"Please try again. This word is invalid: ", "", by simp [GoError.Error]⟩
  · refine ⟨_, PaperChecker_Check_of_many_invalid pk s hne (by simp [hl]), ?_⟩
    intro v hv
    rw [hl]
    obtain ⟨pre, post, h⟩ := intercalate_mem ", " (w :: w2 :: ws) v hv
    refine ⟨"Please try again. These words are invalid: " ++ pre, post, ?_⟩
    simp only [GoError.Error, h, String.append_assoc]

theorem PaperChecker_Check_invalid_words_witness :
    toyPaperKey.String (toyPaperKey.NewPaperKeyPhrase "beta foo bar") ≠ "" ∧
    toyPaperKey.InvalidWords (toyPaperKey.NewPaperKeyPhrase "beta foo bar") = ["foo", "bar"] ∧
    PaperChecker.Check toyPaperKey "beta foo bar" =
      some (.errorString ("Please try again. These words are invalid: " ++
        ", ".intercalate
          (toyPaperKey.InvalidWords (toyPaperKey.NewPaperKeyPhrase "beta foo bar")))) ∧
    PaperChecker.Check toyPaperKey "beta foo bar" =
      some (.errorString "Please try again. These words are invalid: foo, bar") :=
  ⟨by decide, by decide,
    (PaperChecker_Check_invalid_words "exhausted" toyPaperKey "beta foo bar"
      (by decide) (by decide)).2.1 (by decide),
    by decide⟩

/-- C13. The message `PaperChecker.Check` returns when version extraction fails does not
reveal the underlying error: for any two candidates (even under two paper key schemes)
with non-empty phrases and no invalid words whose version extraction fails, with whatever
two underlying errors `e1` and `e2`, the returned errors are identical, namely the fixed
typo message. -/
theorem PaperChecker_Check_masks_version_error {φ1 φ2 : Type} (pk1 : PaperKeyOps φ1)
    (pk2 : PaperKeyOps φ2) (s1 s2 : String) (e1 e2 : GoError)
    (hne1 : pk1.String (pk1.NewPaperKeyPhrase s1) ≠ "")
    (hinv1 : pk1.InvalidWords (pk1.NewPaperKeyPhrase s1) = [])
    (hver1 : (pk1.Version (pk1.NewPaperKeyPhrase s1)).2 = some e1)
    (hne2 : pk2.String (pk2.NewPaperKeyPhrase s2) ≠ "")
    (hinv2 : pk2.InvalidWords (pk2.NewPaperKeyPhrase s2) = [])
    (hver2 : (pk2.Version (pk2.NewPaperKeyPhrase s2)).2 = some e2) :
    PaperChecker.Check pk1 s1 = PaperChecker.Check pk2 s2 ∧
      PaperChecker.Check pk1 s1 = some (.errorString
        "It looks like there was a typo in the paper key. Please try again.") := by
  have h1 := PaperChecker_Check_of_version_error pk1 s1 hne1 hinv1 (by simp [hver1])
  have h2 := PaperChecker_Check_of_version_error pk2 s2 hne2 hinv2 (by simp [hver2])
  exact ⟨h1.trans h2.symm, h1⟩

theorem PaperChecker_Check_masks_version_error_witness :
    (toyPaperKey.Version (toyPaperKey.NewPaperKeyPhrase "gamma")).2 =
      some (.other 4 "phrase too short") ∧
    (toyPaperKey.Version (toyPaperKey.NewPaperKeyPhrase "gamma beta")).2 =
      some (.other 5 "unknown version word") ∧
    PaperChecker.Check toyPaperKey "gamma" = PaperChecker.Check toyPaperKey "gamma beta" :=
  ⟨by decide, by decide,
    (PaperChecker_Check_masks_version_error toyPaperKey toyPaperKey "gamma" "gamma beta"
      (.other 4 "phrase too short") (.other 5 "unknown version word")
      (by decide) (by decide) (by decide) (by decide) (by decide) (by decide)).1⟩

/-- C14. For every predicate `F`, hint string `H` and candidate `s`, `CheckerWrapper.Check`
on the checker `(F, H)` returns nil if and only if `F(s)` is true, and when `F(s)` is false
it returns an error whose message is exactly `H`. -/
theorem CheckerWrapper_Check_spec (x : String) (F : String → Bool) (H : String) (s : String) :
    (CheckerWrapper.Check { checker := { F := F, Hint := H } } s = none ↔ F s = true) ∧
    (F s = false →
      ∃ e, CheckerWrapper.Check { checker := { F := F, Hint := H } } s = some e ∧
        e.Error x = H) := by
  simp only [CheckerWrapper.Check]
  cases hF : F s
  · simp [GoError.Error]
  · simp

theorem CheckerWrapper_Check_spec_witness :
    lengthChecker.F "short" = false ∧
    ∃ e, CheckerWrapper.Check { checker := { F := lengthChecker.F, Hint := lengthChecker.Hint } }
        "short" = some e ∧
      e.Error "exhausted" = lengthChecker.Hint :=
  ⟨by decide,
    (CheckerWrapper_Check_spec "exhausted" lengthChecker.F lengthChecker.Hint "short").2
      (by decide)⟩

/-- C15, as stated, fails: a `CheckerWrapper` whose checker has the empty hint rejects with
an error whose message has length zero. -/
theorem CheckerWrapper_Check_empty_message :
    ∃ e, CheckerWrapper.Check { checker := emptyHintChecker } "hunter2" = some e ∧
      ¬ 0 < (e.Error "exhausted").length :=
  ⟨.errorString "", by decide, by decide⟩

/-- C15, amended. A non-nil result of `PaperChecker.Check` has a message of length greater
than zero, for every candidate and every paper key scheme; a non-nil result of
`CheckerWrapper.Check` has the checker's hint as its message, so its message has length
greater than zero whenever the hint is not the empty string. -/
theorem checkers_rejection_message {φ : Type} (x : String) (pk : PaperKeyOps φ)
    (w : CheckerWrapper) (s : String) (e : GoError) :
    (PaperChecker.Check pk s = some e → 0 < (e.Error x).length) ∧
    (w.Check s = some e →
      e.Error x = w.checker.Hint ∧ (w.checker.Hint ≠ "" → 0 < (e.Error x).length)) := by
  constructor
  · intro h
    by_cases hempty : pk.String (pk.NewPaperKeyPhrase s) = ""
    · rw [PaperChecker_Check_of_empty pk s hempty] at h
      cases h
      simp only [GoError.Error]
      decide
    · rcases hl : pk.InvalidWords (pk.NewPaperKeyPhrase s) with _ | ⟨v, _ | ⟨v2, vs⟩⟩
      · rcases hv : (pk.Version (pk.NewPaperKeyPhrase s)).2 with _ | err
        · by_cases hmis : (pk.Version (pk.NewPaperKeyPhrase s)).1 = pk.PaperKeyVersion
          · rw [PaperChecker_Check_of_valid pk s hempty hl hv hmis] at h
            cases h
          · rw [PaperChecker_Check_of_version_mismatch pk s hempty hl hv hmis] at h
            cases h
            simp only [GoError.Error]
            decide
        · rw [PaperChecker_Check_of_version_error pk s hempty hl (by simp [hv])] at h
          cases h
          simp only [GoError.Error]
          decide
      · rw [PaperChecker_Check_of_one_invalid pk s hempty v hl] at h
        cases h
        simp only [GoError.Error, String.length_append]
        exact Nat.lt_of_lt_of_le (by decide) (Nat.le_add_right _ _)
      · rw [PaperChecker_Check_of_many_invalid pk s hempty (by simp [hl])] at h
        cases h
        simp only [GoError.Error, String.length_append]
        exact Nat.lt_of_lt_of_le (by decide) (Nat.le_add_right _ _)
  · intro h
    unfold CheckerWrapper.Check at h
    by_cases hF : w.checker.F s = true
    · simp [hF] at h
    · simp only [hF, Bool.false_eq_true, if_false, Option.some.injEq] at h
      subst h
      exact ⟨rfl, fun hne => length_pos_of_ne_empty _ hne⟩

theorem checkers_rejection_message_witness :
    PaperChecker.Check toyPaperKey "beta foo" =
      some (.errorString "Please try again. This word is invalid: foo") ∧
    0 < ((GoError.errorString "Please try again. This word is invalid: foo").Error
      "exhausted").length ∧
    CheckerWrapper.Check { checker := lengthChecker } "short" =
      some (.errorString "passphrase must be 12+ characters") ∧
    lengthChecker.Hint ≠ "" ∧
    0 < ((GoError.errorString "passphrase must be 12+ characters").Error "exhausted").length :=
  ⟨by decide,
    (checkers_rejection_message "exhausted" toyPaperKey { checker := lengthChecker }
      "beta foo" (.errorString "Please try again. This word is invalid: foo")).1 (by decide),
    by decide, by decide,
    ((checkers_rejection_message "exhausted" toyPaperKey { checker := lengthChecker }
      "short" (.errorString "passphrase must be 12+ characters")).2 (by decide)).2 (by decide)⟩

/-! ## The entry points as runs of the retry loop -/

section EntryPoints

variable {σ φ : Type} (x : String) (pk : PaperKeyOps φ) (ui : SecretUI σ) (st : σ)

/-- The first Prompter call of `GetPassphraseUntilCheck` receives the caller's
configuration unchanged. -/
theorem GetPassphraseUntilCheck_first_prompt (arg : GUIEntryArg) (P : PassphrasePrompter σ)
    (C : Option PassphraseChecker) :
    (promptCalls (GetPassphraseUntilCheck x arg P st C).log)[0]? =
      some (arg, (P.Prompt st arg).1) :=
  untilCheckLoop_first_prompt x P C 9 arg st

/-- The run of `GetPaperKeyPassphrase` is a run of `GetPassphraseUntilCheck` with
`PaperChecker`, on a configuration with an empty `RetryLabel` and the paper key feature
overrides; the string returned is the passphrase of the result, or empty on an error. -/
theorem GetPaperKeyPassphrase_run (username : String) :
    ∃ arg : GUIEntryArg,
      arg.RetryLabel = "" ∧
      arg.Features.StoreSecret.Allow = false ∧ arg.Features.StoreSecret.Readonly = true ∧
      arg.Features.ShowTyping.Allow = true ∧ arg.Features.ShowTyping.DefaultValue = true ∧
      (GetPaperKeyPassphrase x pk ui st username).log =
        (GetPassphraseUntilCheck x arg (newUIPrompter ui) st
          (some (PaperChecker.Check pk))).log ∧
      (GetPaperKeyPassphrase x pk ui st username).err =
        (GetPassphraseUntilCheck x arg (newUIPrompter ui) st
          (some (PaperChecker.Check pk))).err ∧
      ((GetPaperKeyPassphrase x pk ui st username).err = none →
        (GetPaperKeyPassphrase x pk ui st username).str =
          (GetPassphraseUntilCheck x arg (newUIPrompter ui) st
            (some (PaperChecker.Check pk))).res.Passphrase) ∧
      ((GetPaperKeyPassphrase x pk ui st username).err ≠ none →
        (GetPaperKeyPassphrase x pk ui st username).str = "") := by
  refine ⟨{ DefaultPassphraseArg false with
      WindowTitle := "Paper backup key passphrase"
      Type_ := .PAPER_KEY
      Prompt := "Please enter a paper backup key passphrase for " ++
        (if username.utf8ByteSize = 0 then "your account" else username)
      Username := if username.utf8ByteSize = 0 then "your account" else username
      Features :=
        { StoreSecret :=
            { Allow := false, DefaultValue := false, Readonly := true,
              Label := "Save in Keychain" }
          ShowTyping :=
            { Allow := true, DefaultValue := true, Readonly := true,
              Label := "Show typing" } } },
    rfl, rfl, rfl, rfl, rfl, ?_, ?_, ?_, ?_⟩
  all_goals
    unfold GetPaperKeyPassphrase
    simp only
    split <;> simp_all [DefaultPassphraseArg]

/-- The descriptions of a list of devices that all have one, wrapped and in order. -/
theorem paperKeyDescs_of_all_described (devices : List (Option Device))
    (hall : ∀ dev ∈ devices, derefDescription dev ≠ none) :
    paperKeyDescs devices =
      some ((devices.filterMap derefDescription).map fun d => "'" ++ d ++ "...'") := by
  induction devices with
  | nil => rfl
  | cons dev devices ih =>
    rcases hd : derefDescription dev with _ | d
    · exact absurd hd (hall dev (List.mem_cons_self _ _))
    · have ih1 := ih (fun dev1 h1 => hall dev1 (List.mem_cons_of_mem _ h1))
      simp [paperKeyDescs, hd, ih1]

/-- The run of `GetPaperKeyForCryptoPassphrase` on a non-empty device list, when it does
not panic, is a run of `GetPassphraseUntilCheck` with `PaperChecker`, on a configuration
with an empty `RetryLabel`, the features the function sets, and the prompt built from the
descriptions; the string returned is the passphrase of the result, or empty on an error. -/
theorem GetPaperKeyForCryptoPassphrase_run (reason : String) (devices : List (Option Device))
    (hne : devices ≠ []) (r : StringRun σ)
    (h : GetPaperKeyForCryptoPassphrase x pk ui st reason devices = some r) :
    ∃ arg : GUIEntryArg,
      arg.RetryLabel = "" ∧
      arg.Features.StoreSecret.Allow = false ∧ arg.Features.StoreSecret.Readonly = true ∧
      arg.Features.ShowTyping.Allow = true ∧ arg.Features.ShowTyping.DefaultValue = false ∧
      (∀ dev, devices = [dev] → ∃ d, derefDescription dev = some d ∧
        arg.Prompt = reason ++ ": please enter the paper key '" ++ d ++ "...'") ∧
      (2 ≤ devices.length → ∃ descs, paperKeyDescs devices = some descs ∧
        arg.Prompt = reason ++ ": please enter one of the following paper keys " ++
          " or ".intercalate descs) ∧
      r.log = (GetPassphraseUntilCheck x arg (newUIPrompter ui) st
        (some (PaperChecker.Check pk))).log ∧
      r.err = (GetPassphraseUntilCheck x arg (newUIPrompter ui) st
        (some (PaperChecker.Check pk))).err ∧
      (r.err = none → r.str = (GetPassphraseUntilCheck x arg (newUIPrompter ui) st
        (some (PaperChecker.Check pk))).res.Passphrase) ∧
      (r.err ≠ none → r.str = "") := by
  have key : ∀ p : String,
      (match (GetPassphraseUntilCheck x
          { DefaultPassphraseArg false with
            WindowTitle := "Paper backup key passphrase"
            Type_ := .PAPER_KEY
            Prompt := p
            Features :=
              { StoreSecret :=
                  { Allow := false, DefaultValue := false, Readonly := true,
                    Label := "Save in Keychain" }
                ShowTyping := (DefaultPassphraseArg false).Features.ShowTyping } }
          (newUIPrompter ui) st (some (PaperChecker.Check pk))).err with
        | some err => some
          { str := "", err := some err,
            log := (GetPassphraseUntilCheck x
              { DefaultPassphraseArg false with
                WindowTitle := "Paper backup key passphrase"
                Type_ := .PAPER_KEY
                Prompt := p
                Features :=
                  { StoreSecret :=
                      { Allow := false, DefaultValue := false, Readonly := true,
                        Label := "Save in Keychain" }
                    ShowTyping := (DefaultPassphraseArg false).Features.ShowTyping } }
              (newUIPrompter ui) st (some (PaperChecker.Check pk))).log,
            state := (GetPassphraseUntilCheck x
              { DefaultPassphraseArg false with
                WindowTitle := "Paper backup key passphrase"
                Type_ := .PAPER_KEY
                Prompt := p
                Features :=
                  { StoreSecret :=
                      { Allow := false, DefaultValue := false, Readonly := true,
                        Label := "Save in Keychain" }
                    ShowTyping := (DefaultPassphraseArg false).Features.ShowTyping } }
              (newUIPrompter ui) st (some (PaperChecker.Check pk))).state }
        | none => some
          { str := (GetPassphraseUntilCheck x
              { DefaultPassphraseArg false with
                WindowTitle := "Paper backup key passphrase"
                Type_ := .PAPER_KEY
                Prompt := p
                Features :=
                  { StoreSecret :=
                      { Allow := false, DefaultValue := false, Readonly := true,
                        Label := "Save in Keychain" }
                    ShowTyping := (DefaultPassphraseArg false).Features.ShowTyping } }
              (newUIPrompter ui) st (some (PaperChecker.Check pk))).res.Passphrase,
            err := none,
            log := (GetPassphraseUntilCheck x
              { DefaultPassphraseArg false with
                WindowTitle := "Paper backup key passphrase"
                Type_ := .PAPER_KEY
                Prompt := p
                Features :=
                  { StoreSecret :=
                      { Allow := false, DefaultValue := false, Readonly := true,
                        Label := "Save in Keychain" }
                    ShowTyping := (DefaultPassphraseArg false).Features.ShowTyping } }
              (newUIPrompter ui) st (some (PaperChecker.Check pk))).log,
            state := (GetPassphraseUntilCheck x
              { DefaultPassphraseArg false with
                WindowTitle := "Paper backup key passphrase"
                Type_ := .PAPER_KEY
                Prompt := p
                Features :=
                  { StoreSecret :=
                      { Allow := false, DefaultValue := false, Readonly := true,
                        Label := "Save in Keychain" }
                    ShowTyping := (DefaultPassphraseArg false).Features.ShowTyping } }
              (newUIPrompter ui) st (some (PaperChecker.Check pk))).state }) = some r →
      ∃ arg : GUIEntryArg,
        arg.RetryLabel = "" ∧
        arg.Features.StoreSecret.Allow = false ∧ arg.Features.StoreSecret.Readonly = true ∧
        arg.Features.ShowTyping.Allow = true ∧ arg.Features.ShowTyping.DefaultValue = false ∧
        arg.Prompt = p ∧
        r.log = (GetPassphraseUntilCheck x arg (newUIPrompter ui) st
          (some (PaperChecker.Check pk))).log ∧
        r.err = (GetPassphraseUntilCheck x arg (newUIPrompter ui) st
          (some (PaperChecker.Check pk))).err ∧
        (r.err = none → r.str = (GetPassphraseUntilCheck x arg (newUIPrompter ui) st
          (some (PaperChecker.Check pk))).res.Passphrase) ∧
        (r.err ≠ none → r.str = "") := by
    intro p hp
    refine ⟨{ DefaultPassphraseArg false with
        WindowTitle := "Paper backup key passphrase"
        Type_ := .PAPER_KEY
        Prompt := p
        Features :=
          { StoreSecret :=
              { Allow := false, DefaultValue := false, Readonly := true,
                Label := "Save in Keychain" }
            ShowTyping := (DefaultPassphraseArg false).Features.ShowTyping } },
      rfl, rfl, rfl, rfl, rfl, rfl, ?_⟩
    split at hp
    · simp only [Option.some.injEq] at hp
      subst hp
      simp_all
    · simp only [Option.some.injEq] at hp
      subst hp
      simp_all
  rcases devices with _ | ⟨dev, _ | ⟨dev2, rest⟩⟩
  · exact absurd rfl hne
  · rcases hd : derefDescription dev with _ | d
    · simp [GetPaperKeyForCryptoPassphrase, hd] at h
    · simp only [GetPaperKeyForCryptoPassphrase, List.length_singleton, one_ne_zero,
        dite_false, if_true, List.getElem_cons_zero, hd] at h
      obtain ⟨arg, h1, h2, h3, h4, h5, h6, h7⟩ := key _ h
      refine ⟨arg, h1, h2, h3, h4, h5, ?_, ?_, h7⟩
      · intro dev1 hdev
        simp only [List.cons.injEq, and_true] at hdev
        subst hdev
        exact ⟨d, hd, h6⟩
      · intro hlen
        simp at hlen
  · rcases hd : paperKeyDescs (dev :: dev2 :: rest) with _ | descs
    · simp [GetPaperKeyForCryptoPassphrase, hd] at h
    · simp only [GetPaperKeyForCryptoPassphrase, List.length_cons, hd] at h
      simp only [Nat.add_one_ne_zero, dite_false, Nat.add_left_eq_self, if_false] at h
      obtain ⟨arg, h1, h2, h3, h4, h5, h6, h7⟩ := key _ h
      refine ⟨arg, h1, h2, h3, h4, h5, ?_, ?_, h7⟩
      · intro dev1 hdev
        simp at hdev
      · intro _
        exact ⟨descs, rfl, h6⟩

/-- On a non-empty list of devices that all have a description,
`GetPaperKeyForCryptoPassphrase` does not panic. -/
theorem GetPaperKeyForCryptoPassphrase_defined (reason : String)
    (devices : List (Option Device))
    (hall : ∀ dev ∈ devices, derefDescription dev ≠ none) :
    ∃ r, GetPaperKeyForCryptoPassphrase x pk ui st reason devices = some r := by
  rcases devices with _ | ⟨dev, _ | ⟨dev2, rest⟩⟩
  · exact ⟨_, rfl⟩
  · rcases hd : derefDescription dev with _ | d
    · exact absurd hd (hall dev (List.mem_cons_self _ _))
    · simp only [GetPaperKeyForCryptoPassphrase, List.length_singleton, one_ne_zero,
        dite_false, if_true, List.getElem_cons_zero, hd]
      split <;> exact ⟨_, rfl⟩
  · have hd := paperKeyDescs_of_all_described (dev :: dev2 :: rest) hall
    simp only [GetPaperKeyForCryptoPassphrase, List.length_cons, hd]
    simp only [Nat.add_one_ne_zero, dite_false, Nat.add_left_eq_self, if_false]
    split <;> exact ⟨_, rfl⟩

end EntryPoints

/-! ## The scenario builders -/

/-- C16, as stated, fails: `GetKeybasePassphrase` called with the retry message
"try again" passes a configuration whose `RetryLabel` is "try again", not the empty string,
to its first Prompter call. -/
theorem GetKeybasePassphrase_first_retry_label_not_empty :
    ∃ q, (promptCalls (GetKeybasePassphrase "exhausted" lengthChecker scriptedUI paperScript
        "alice" "try again" true).log)[0]? = some q ∧
      q.1.RetryLabel = "try again" ∧ q.1.RetryLabel ≠ "" :=
  ⟨_, GetPassphraseUntilCheck_first_prompt "exhausted" paperScript _ (newUIPrompter scriptedUI)
    (some (CheckerWrapper.Check { checker := lengthChecker })), by decide, by decide⟩

/-- C16, amended. The configuration passed to the first Prompter call has `RetryLabel`
equal to the caller's `retryMsg` for `GetKeybasePassphrase` and `GetSecret` (so empty when
the caller passes the empty string), and equal to the empty string for
`GetPaperKeyPassphrase` and, whenever it reaches the prompter (a non-empty device list and
no panic), for `GetPaperKeyForCryptoPassphrase`; for all of their other arguments. -/
theorem first_prompt_retry_label {σ φ : Type} (x : String) (CheckPassphraseSimple : Checker)
    (pk : PaperKeyOps φ) (ui : SecretUI σ) (st : σ)
    (username title prompt retryMsg reason : String) (allowSecretStore : Bool)
    (devices : List (Option Device)) :
    (∃ q, (promptCalls (GetKeybasePassphrase x CheckPassphraseSimple ui st username retryMsg
        allowSecretStore).log)[0]? = some q ∧ q.1.RetryLabel = retryMsg) ∧
    (∃ q, (promptCalls (GetSecret x CheckPassphraseSimple ui st title prompt retryMsg
        allowSecretStore).log)[0]? = some q ∧ q.1.RetryLabel = retryMsg) ∧
    (∃ q, (promptCalls (GetPaperKeyPassphrase x pk ui st username).log)[0]? = some q ∧
      q.1.RetryLabel = "") ∧
    (∀ r, GetPaperKeyForCryptoPassphrase x pk ui st reason devices = some r →
      devices ≠ [] →
      ∃ q, (promptCalls r.log)[0]? = some q ∧ q.1.RetryLabel = "") := by
  refine ⟨?_, ?_, ?_, ?_⟩
  · exact ⟨_, GetPassphraseUntilCheck_first_prompt x st _ (newUIPrompter ui)
      (some (CheckerWrapper.Check { checker := CheckPassphraseSimple })), rfl⟩
  · exact ⟨_, GetPassphraseUntilCheck_first_prompt x st _ (newUIPrompter ui)
      (some (CheckerWrapper.Check { checker := CheckPassphraseSimple })), rfl⟩
  · obtain ⟨arg, h1, -, -, -, -, hlog, -⟩ := GetPaperKeyPassphrase_run x pk ui st username
    rw [hlog]
    exact ⟨_, GetPassphraseUntilCheck_first_prompt x st arg (newUIPrompter ui) _, h1⟩
  · intro r hr hne
    obtain ⟨arg, h1, -, -, -, -, -, -, hlog, -⟩ :=
      GetPaperKeyForCryptoPassphrase_run x pk ui st reason devices hne r hr
    rw [hlog]
    exact ⟨_, GetPassphraseUntilCheck_first_prompt x st arg (newUIPrompter ui) _, h1⟩

theorem first_prompt_retry_label_witness :
    (∃ r, GetPaperKeyForCryptoPassphrase "exhausted" toyPaperKey scriptedUI paperScript
        "Decrypt" exampleDevices = some r ∧
      ∃ q, (promptCalls r.log)[0]? = some q ∧ q.1.RetryLabel = "") ∧
    ∃ q, (promptCalls (GetSecret "exhausted" lengthChecker scriptedUI paperScript
        "Secret" "Enter the secret" "try again" true).log)[0]? = some q ∧
      q.1.RetryLabel = "try again" :=
  ⟨⟨_, rfl,
      (first_prompt_retry_label "exhausted" lengthChecker toyPaperKey scriptedUI paperScript
        "alice" "Secret" "Enter the secret" "try again" "Decrypt" true exampleDevices).2.2.2
        _ rfl (by decide)⟩,
    (first_prompt_retry_label "exhausted" lengthChecker toyPaperKey scriptedUI paperScript
      "alice" "Secret" "Enter the secret" "try again" "Decrypt" true exampleDevices).2.1⟩

/-- C17 fails on the code.  On the reason "Decrypt" and two devices, every configuration
`GetPaperKeyForCryptoPassphrase` passes to the Prompter has
`Features.ShowTyping.DefaultValue = false` (with `StoreSecret.Allow = false`,
`StoreSecret.Readonly = true` and `ShowTyping.Allow = true`), whereas the configurations
`GetPaperKeyPassphrase` passes have `Features.ShowTyping.DefaultValue = true`. -/
theorem GetPaperKeyForCryptoPassphrase_show_typing_default :
    ((GetPaperKeyForCryptoPassphrase "exhausted" toyPaperKey scriptedUI paperScript
        "Decrypt" exampleDevices).map fun r =>
      (promptCalls r.log).map fun q =>
        (q.1.Features.StoreSecret.Allow, q.1.Features.StoreSecret.Readonly,
          q.1.Features.ShowTyping.Allow, q.1.Features.ShowTyping.DefaultValue)) =
      some [(false, true, true, false), (false, true, true, false)] ∧
    ((promptCalls (GetPaperKeyPassphrase "exhausted" toyPaperKey scriptedUI paperScript
        "alice").log).map fun q =>
        (q.1.Features.StoreSecret.Allow, q.1.Features.StoreSecret.Readonly,
          q.1.Features.ShowTyping.Allow, q.1.Features.ShowTyping.DefaultValue)) =
      [(false, true, true, true), (false, true, true, true)] := by
  decide

/-- C18. For every reason and every non-empty device list whose devices all have a
description, `GetPaperKeyForCryptoPassphrase` returns, calls the Prompter, and the prompt of
every configuration it passes to the Prompter is: for exactly one device with description
`d`, the reason followed by ": please enter the paper key '", `d` and "...'"; for two or
more devices, the reason followed by ": please enter one of the following paper keys " and
the descriptions, each wrapped as `'d...'`, in list order and joined by " or ".  So every
device's description occurs in the prompt. -/
theorem GetPaperKeyForCryptoPassphrase_prompt {σ φ : Type} (x : String) (pk : PaperKeyOps φ)
    (ui : SecretUI σ) (st : σ) (reason : String) (devices : List (Option Device))
    (hne : devices ≠ []) (hall : ∀ dev ∈ devices, derefDescription dev ≠ none) :
    ∃ r, GetPaperKeyForCryptoPassphrase x pk ui st reason devices = some r ∧
      promptCalls r.log ≠ [] ∧
      ∀ q ∈ promptCalls r.log,
        (∀ dev d, devices = [dev] → derefDescription dev = some d →
          q.1.Prompt = reason ++ ": please enter the paper key '" ++ d ++ "...'") ∧
        (2 ≤ devices.length →
          q.1.Prompt = reason ++ ": please enter one of the following paper keys " ++
            " or ".intercalate
              ((devices.filterMap derefDescription).map fun d => "'" ++ d ++ "...'")) ∧
        ∀ d ∈ devices.filterMap derefDescription, ∃ pre post, q.1.Prompt = pre ++ d ++ post := by
  obtain ⟨r, hr⟩ := GetPaperKeyForCryptoPassphrase_defined x pk ui st reason devices hall
  obtain ⟨arg, -, -, -, -, -, hone, hmany, hlog, -⟩ :=
    GetPaperKeyForCryptoPassphrase_run x pk ui st reason devices hne r hr
  have hdescs := paperKeyDescs_of_all_described devices hall
  refine ⟨r, hr, ?_, ?_⟩
  · intro hnil
    have hfirst := GetPassphraseUntilCheck_first_prompt x st arg (newUIPrompter ui)
      (some (PaperChecker.Check pk))
    rw [← hlog, hnil] at hfirst
    simp at hfirst
  · intro q hq
    rw [hlog] at hq
    have hprompt : q.1.Prompt = arg.Prompt :=
      (untilCheckLoop_frame x (newUIPrompter ui) (some (PaperChecker.Check pk)) 10 arg st
        q hq).2.1
    rw [hprompt]
    refine ⟨?_, ?_, ?_⟩
    · intro dev d hdev hd
      obtain ⟨d1, hd1, hp⟩ := hone dev hdev
      rw [hd] at hd1
      cases hd1
      exact hp
    · intro hlen
      obtain ⟨descs, hd, hp⟩ := hmany hlen
      rw [hdescs] at hd
      cases hd
      exact hp
    · intro d hd
      rcases devices with _ | ⟨dev, _ | ⟨dev2, rest⟩⟩
      · exact absurd rfl hne
      · obtain ⟨d1, hd1, hp⟩ := hone dev rfl
        simp only [List.filterMap_cons, hd1, List.filterMap_nil, List.mem_singleton] at hd
        subst hd
        exact ⟨reason ++ ": please enter the paper key '", "...'", hp⟩
      · obtain ⟨descs, hd2, hp⟩ := hmany (by simp)
        rw [hdescs] at hd2
        cases hd2
        obtain ⟨pre, post, hj⟩ := intercalate_mem " or "
          (((dev :: dev2 :: rest).filterMap derefDescription).map fun d => "'" ++ d ++ "...'")
          ("'" ++ d ++ "...'") (List.mem_map.2 ⟨d, hd, rfl⟩)
        refine ⟨reason ++ ": please enter one of the following paper keys " ++ pre ++ "'",
          "...'" ++ post, ?_⟩
        rw [hp, hj]
        simp only [String.append_assoc]

theorem GetPaperKeyForCryptoPassphrase_prompt_witness :
    exampleDevices ≠ [] ∧ (∀ dev ∈ exampleDevices, derefDescription dev ≠ none) ∧
    ∃ r, GetPaperKeyForCryptoPassphrase "exhausted" toyPaperKey scriptedUI paperScript
        "Decrypt" exampleDevices = some r ∧
      promptCalls r.log ≠ [] ∧
      ∀ q ∈ promptCalls r.log,
        (∀ dev d, exampleDevices = [dev] → derefDescription dev = some d →
          q.1.Prompt = "Decrypt" ++ ": please enter the paper key '" ++ d ++ "...'") ∧
        (2 ≤ exampleDevices.length →
          q.1.Prompt = "Decrypt" ++ ": please enter one of the following paper keys " ++
            " or ".intercalate
              ((exampleDevices.filterMap derefDescription).map fun d => "'" ++ d ++ "...'")) ∧
        ∀ d ∈ exampleDevices.filterMap derefDescription,
          ∃ pre post, q.1.Prompt = pre ++ d ++ post :=
  ⟨by decide, by decide,
    GetPaperKeyForCryptoPassphrase_prompt "exhausted" toyPaperKey scriptedUI paperScript
      "Decrypt" exampleDevices (by decide) (by decide)⟩

/-- C19. Given a nil checker, `GetPassphraseUntilCheck` makes exactly one Prompter call,
with the caller's configuration, and no Checker call; if that call does not error, it
returns the result of that call unchanged and without error; if it errors, it returns that
error. -/
theorem GetPassphraseUntilCheck_nil_checker {σ : Type} (x : String) (arg : GUIEntryArg)
    (P : PassphrasePrompter σ) (st : σ) :
    promptCalls (GetPassphraseUntilCheck x arg P st none).log =
        [(arg, (P.Prompt st arg).1)] ∧
      checkCalls (GetPassphraseUntilCheck x arg P st none).log = [] ∧
      ((P.Prompt st arg).1.2 = none →
        (GetPassphraseUntilCheck x arg P st none).err = none ∧
        (GetPassphraseUntilCheck x arg P st none).res = (P.Prompt st arg).1.1) ∧
      (∀ e, (P.Prompt st arg).1.2 = some e →
        (GetPassphraseUntilCheck x arg P st none).err = some e) := by
  unfold GetPassphraseUntilCheck
  rcases hP : P.Prompt st arg with ⟨⟨res, _ | e⟩, st1⟩
  · rw [untilCheckLoop_nilChecker x P 9 hP]
    simp [promptCalls, checkCalls]
  · rw [untilCheckLoop_promptErr x P none 9 hP]
    simp [promptCalls, checkCalls]

theorem GetPassphraseUntilCheck_nil_checker_witness :
    (scriptedPrompter.Prompt exampleScript (DefaultPassphraseArg true)).1.2 = none ∧
    (GetPassphraseUntilCheck "exhausted" (DefaultPassphraseArg true) scriptedPrompter
        exampleScript none).err = none ∧
    (GetPassphraseUntilCheck "exhausted" (DefaultPassphraseArg true) scriptedPrompter
        exampleScript none).res = { Passphrase := "a", StoreSecret := false } :=
  ⟨by decide,
    (GetPassphraseUntilCheck_nil_checker "exhausted" (DefaultPassphraseArg true)
      scriptedPrompter exampleScript).2.2.1 (by decide)⟩

/-- C20. Every string that `GetPaperKeyPassphrase` or `GetPaperKeyForCryptoPassphrase`
returns without error is a passphrase one of its Prompter calls returned without error and
that `PaperChecker.Check` accepts; on any error both return the empty string. -/
theorem paper_key_entry_points_result {σ φ : Type} (x : String) (pk : PaperKeyOps φ)
    (ui : SecretUI σ) (st : σ) (username reason : String) (devices : List (Option Device)) :
    (((GetPaperKeyPassphrase x pk ui st username).err = none →
        (∃ a res, (a, res, none) ∈ promptCalls (GetPaperKeyPassphrase x pk ui st username).log ∧
          res.Passphrase = (GetPaperKeyPassphrase x pk ui st username).str) ∧
        PaperChecker.Check pk (GetPaperKeyPassphrase x pk ui st username).str = none) ∧
      ((GetPaperKeyPassphrase x pk ui st username).err ≠ none →
        (GetPaperKeyPassphrase x pk ui st username).str = "")) ∧
    (∀ r, GetPaperKeyForCryptoPassphrase x pk ui st reason devices = some r →
      (r.err = none →
        (∃ a res, (a, res, none) ∈ promptCalls r.log ∧ res.Passphrase = r.str) ∧
        PaperChecker.Check pk r.str = none) ∧
      (r.err ≠ none → r.str = "")) := by
  constructor
  · obtain ⟨arg, -, -, -, -, -, hlog, herr, hstr, hempty⟩ :=
      GetPaperKeyPassphrase_run x pk ui st username
    refine ⟨fun h => ?_, hempty⟩
    obtain ⟨pre, a, hcalls, hacc, -⟩ :=
      untilCheckLoop_success_last x (newUIPrompter ui) (PaperChecker.Check pk) 10 arg st
        (herr ▸ h)
    rw [hstr h, hlog]
    unfold GetPassphraseUntilCheck
    exact ⟨⟨a, _, by rw [hcalls]; simp, rfl⟩, hacc⟩
  · intro r hr
    rcases devices with _ | ⟨dev, rest⟩
    · simp only [GetPaperKeyForCryptoPassphrase, List.length_nil, dite_true,
        Option.some.injEq] at hr
      subst hr
      simp
    · obtain ⟨arg, -, -, -, -, -, -, -, hlog, herr, hstr, hempty⟩ :=
        GetPaperKeyForCryptoPassphrase_run x pk ui st reason (dev :: rest) (by simp) r hr
      refine ⟨fun h => ?_, hempty⟩
      obtain ⟨pre, a, hcalls, hacc, -⟩ :=
        untilCheckLoop_success_last x (newUIPrompter ui) (PaperChecker.Check pk) 10 arg st
          (herr ▸ h)
      rw [hstr h, hlog]
      unfold GetPassphraseUntilCheck
      exact ⟨⟨a, _, by rw [hcalls]; simp, rfl⟩, hacc⟩

theorem paper_key_entry_points_result_witness :
    (GetPaperKeyPassphrase "exhausted" toyPaperKey scriptedUI paperScript "alice").err = none ∧
    (GetPaperKeyPassphrase "exhausted" toyPaperKey scriptedUI paperScript "alice").str =
      "beta gamma" ∧
    PaperChecker.Check toyPaperKey
      (GetPaperKeyPassphrase "exhausted" toyPaperKey scriptedUI paperScript "alice").str = none :=
  ⟨by decide, by decide,
    ((paper_key_entry_points_result "exhausted" toyPaperKey scriptedUI paperScript "alice"
      "Decrypt" exampleDevices).1.1 (by decide)).2⟩

end libkb
